import Mathlib

/-!
Verification development for the SQL-to-Redis transformer crate.

The Rust sources under `src/` are shallowly embedded below: the subset of the
`sqlparser` statement AST that the crate reads, the pure extraction functions in
`src/ast/`, the pattern combinators in `src/pattern/combinators.rs`, the
matchers in `src/pattern/matchers/`, the extractors in
`src/pattern/extractors/`, the context builders in `src/context/`, the rule
registry in `src/rules/`, the template engine in `src/templates/mod.rs`, the
direct command generator in `src/commands.rs`, and the transformer facade in
`src/lib.rs`.  Rust `HashMap<String, String>` values are modelled as
association lists with unique keys (`assoc_insert` keeps keys unique, mirroring
`HashMap::insert` overwrite semantics; iteration order is modelled as insertion
order, which the source does not guarantee).  Rust `u64` arithmetic is modelled
on `Nat` with explicit reduction modulo `2 ^ 64` where overflow can occur.
-/

namespace SqlToRedis

/-- Subset of the external `sqlparser` literal values that the crate reads
(`Value::SingleQuotedString`, `Value::DoubleQuotedString`, `Value::Number`);
all other literal kinds (booleans, nulls, placeholders, ...) are collapsed
into `otherValue`, which every extractor in the crate rejects.  The
`ValueWithSpan` wrapper is dropped: the crate only ever reads `.value`. -/
inductive SqlValue where
  | singleQuotedString (s : String)
  | doubleQuotedString (s : String)
  | number (n : String)
  | otherValue
deriving Repr, DecidableEq

/-- Subset of `sqlparser::ast::BinaryOperator` read by the crate. -/
inductive BinaryOperator where
  | eq
  | andOp
  | orOp
  | gt
  | gtEq
  | lt
  | ltEq
  | otherOp
deriving Repr, DecidableEq

/-- Subset of `sqlparser::ast::Expr` read by the crate: identifiers, literal
values, binary operations and parenthesised expressions; every other
expression form is `otherExpr`, which all extractors reject. -/
inductive Expr where
  | identifier (name : String)
  | value (v : SqlValue)
  | binaryOp (left : Expr) (op : BinaryOperator) (right : Expr)
  | nested (inner : Expr)
  | otherExpr
deriving Repr, DecidableEq

/-- Subset of `sqlparser::ast::SelectItem`. -/
inductive SelectItem where
  | wildcard
  | unnamedExpr (e : Expr)
  | otherItem
deriving Repr, DecidableEq

/-- Subset of `sqlparser::ast::TableFactor`: a named table carries its
`ObjectName` parts (each part an identifier value); anything else is
`otherFactor`.  The `TableWithJoins` wrapper is collapsed to its `relation`
field, the only field the crate reads. -/
inductive TableFactor where
  | table (nameParts : List String)
  | otherFactor
deriving Repr, DecidableEq

/-- Subset of `sqlparser::ast::Select`: projection, FROM relations and the
WHERE clause, the only fields the crate reads. -/
structure Select where
  projection : List SelectItem
  fromRel : List TableFactor
  selection : Option Expr
deriving Repr, DecidableEq

/-- One ORDER BY term: its expression and the `asc` option
(`None` = direction unspecified, `Some false` = DESC, `Some true` = ASC). -/
structure OrderExpr where
  expr : Expr
  asc : Option Bool
deriving Repr, DecidableEq

/-- Subset of `sqlparser::ast::OrderByKind`. -/
inductive OrderByKind where
  | expressions (exprs : List OrderExpr)
  | otherKind
deriving Repr, DecidableEq

/-- Subset of `sqlparser::ast::SetExpr`: a plain SELECT body or a VALUES body;
nested query forms are `otherBody` (the crate reads neither). -/
inductive SetExpr where
  | selectBody (s : Select)
  | valuesBody (rows : List (List Expr))
  | otherBody
deriving Repr, DecidableEq

/-- Subset of `sqlparser::ast::Query`: body, ORDER BY and LIMIT, the only
fields the crate reads. -/
structure Query where
  body : SetExpr
  orderBy : Option OrderByKind
  limit : Option Expr
deriving Repr, DecidableEq

/-- Subset of `sqlparser::ast::TableObject` (INSERT target). -/
inductive TableObject where
  | tableName (nameParts : List String)
  | tableFunction
deriving Repr, DecidableEq

/-- Subset of `sqlparser::ast::Insert`: target table, column list and source
query, the only fields the crate reads. -/
structure InsertStmt where
  table : TableObject
  columns : List String
  source : Option Query
deriving Repr, DecidableEq

/-- Subset of `sqlparser::ast::AssignmentTarget`. -/
inductive AssignmentTarget where
  | columnName (nameParts : List String)
  | otherTarget
deriving Repr, DecidableEq

/-- One SET assignment of an UPDATE statement. -/
structure Assignment where
  target : AssignmentTarget
  value : Expr
deriving Repr, DecidableEq

/-- Subset of `Statement::Update`: target relation, assignments and WHERE
clause, the only fields the crate reads. -/
structure UpdateStmt where
  table : TableFactor
  assignments : List Assignment
  selection : Option Expr
deriving Repr, DecidableEq

/-- Subset of `sqlparser::ast::Delete`: the `tables` list of a multi-table
DELETE (each an `ObjectName` part list), the FROM relations (the
`FromTable::WithFromKeyword` and `WithoutKeyword` cases are collapsed, exactly
as the single source pattern `WithFromKeyword(tables) | WithoutKeyword(tables)`
treats them) and the WHERE clause. -/
structure DeleteStmt where
  tables : List (List String)
  fromTables : List TableFactor
  selection : Option Expr
deriving Repr, DecidableEq

/-- Subset of `sqlparser::ast::Statement` over the four statement kinds the
crate dispatches on. -/
inductive Statement where
  | query (q : Query)
  | insert (i : InsertStmt)
  | update (u : UpdateStmt)
  | delete (d : DeleteStmt)
  | otherStmt
deriving Repr, DecidableEq

/-- Models Rust `str::ends_with`: suffix test on the character sequence (for
the pure-ASCII suffixes used by the crate, byte-level and character-level
suffix tests coincide). -/
def str_ends_with (s suffix : String) : Bool :=
  suffix.toList.isSuffixOf s.toList

/-- ASCII lowercase conversion of one character. -/
def char_lower (c : Char) : Char :=
  if 65 ≤ c.toNat ∧ c.toNat ≤ 90 then Char.ofNat (c.toNat + 32) else c

/-- Models Rust `str::to_lowercase` for the identifier comparisons in the
crate (the compared identifiers and field names are ASCII). -/
def str_lower (s : String) : String :=
  String.mk (s.data.map char_lower)

/-- The numeric value of a decimal digit string, `none` on any non-digit. -/
def parse_nat_digits (l : List Char) : Option Nat :=
  l.foldl
    (fun acc c =>
      acc.bind fun v =>
        if 48 ≤ c.toNat ∧ c.toNat ≤ 57 then some (v * 10 + (c.toNat - 48)) else none)
    (some 0)

/-- Models `str::parse::<u64>()` on a `sqlparser` number token: a nonempty
decimal digit string whose value fits in a `u64`. -/
def parse_u64 (n : String) : Option Nat :=
  if n.data.isEmpty then none
  else
    (parse_nat_digits n.data).bind fun v => if v < 2 ^ 64 then some v else none

/-- Models the Rust `u64` subtraction `limit - 1`: for `limit ≥ 1` this is the
mathematical `limit - 1`; for `limit = 0` the subtraction overflows and wraps
to `2 ^ 64 - 1` (release-build semantics; a debug build panics instead). -/
def u64_sub_one (limit : Nat) : Nat :=
  (limit + (2 ^ 64 - 1)) % 2 ^ 64

/-- Association-list model of `HashMap<String, String>`: `insert` overwrites
the existing binding of a key, so keys stay unique. -/
def assoc_insert (m : List (String × String)) (k v : String) : List (String × String) :=
  if m.any (fun p => p.1 == k) then
    m.map fun p => if p.1 == k then (k, v) else p
  else
    m ++ [(k, v)]

/-- Association-list model of `HashMap::get`. -/
def assoc_get (m : List (String × String)) (k : String) : Option String :=
  (m.find? fun p => p.1 == k).map fun p => p.2

/-- Association-list model of `HashMap::contains_key`. -/
def assoc_contains (m : List (String × String)) (k : String) : Bool :=
  m.any fun p => p.1 == k

/-- Association-list model of `HashMap::remove` (returns the map without the
key, which is all `HashSetContextBuilder` uses). -/
def assoc_remove (m : List (String × String)) (k : String) : List (String × String) :=
  m.filter fun p => !(p.1 == k)

/-! ### `src/ast/select.rs` — pure SELECT AST extraction functions -/

/-- Embeds `sel_get_query` (src/ast/select.rs). -/
def sel_get_query : Statement → Option Query
  | .query q => some q
  | _ => none

/-- Embeds `sel_get_select` (src/ast/select.rs). -/
def sel_get_select (query : Query) : Option Select :=
  match query.body with
  | .selectBody s => some s
  | _ => none

/-- Embeds `sel_get_table_name` (src/ast/select.rs): the first identifier part
of the first FROM relation, when that relation is a plain table. -/
def sel_get_table_name (select : Select) : Option String :=
  select.fromRel.head?.bind fun rel =>
    match rel with
    | .table nameParts => nameParts.head?
    | _ => none

/-- Embeds `sel_get_key_value` (src/ast/select.rs): the right-hand literal of
a top-level `key = literal` equality.  Note the function inspects only the
top node of the WHERE tree: it does not recurse into conjunctions. -/
def sel_get_key_value (expr : Option Expr) : Option String :=
  expr.bind fun e =>
    match e with
    | .binaryOp left op right =>
      if op ≠ .eq then none
      else
        match left with
        | .identifier ident =>
          if str_lower ident == "key" then
            match right with
            | .value (.singleQuotedString s) => some s
            | .value (.doubleQuotedString s) => some s
            | .value (.number n) => some n
            | _ => none
          else none
        | _ => none
    | _ => none

/-- Embeds `sel_get_field_name` (src/ast/select.rs). -/
def sel_get_field_name : SelectItem → Option String
  | .unnamedExpr (.identifier ident) => some ident
  | _ => none

/-- Embeds `sel_get_field_names` (src/ast/select.rs). -/
def sel_get_field_names (items : List SelectItem) : List String :=
  items.filterMap sel_get_field_name

/-- Embeds `sel_is_wildcard` (src/ast/select.rs). -/
def sel_is_wildcard : SelectItem → Bool
  | .wildcard => true
  | _ => false

/-- Embeds `sel_get_field_filter` (src/ast/select.rs): like
`sel_get_key_value` but for an arbitrary field name (case-insensitive);
again only the top node of the WHERE tree is inspected. -/
def sel_get_field_filter (expr : Option Expr) (field_name : String) : Option String :=
  expr.bind fun e =>
    match e with
    | .binaryOp left op right =>
      if op ≠ .eq then none
      else
        match left with
        | .identifier ident =>
          if str_lower ident == str_lower field_name then
            match right with
            | .value (.singleQuotedString s) => some s
            | .value (.doubleQuotedString s) => some s
            | .value (.number n) => some n
            | _ => none
          else none
        | _ => none
    | _ => none

/-- Embeds `sel_get_limit` (src/ast/select.rs): the LIMIT literal parsed as a
`u64`. -/
def sel_get_limit (query : Query) : Option Nat :=
  query.limit.bind fun l =>
    match l with
    | .value (.number n) => parse_u64 n
    | _ => none

/-- Embeds `sel_get_score_range` (src/ast/select.rs): a single top-level
`score <cmp> number` comparison mapped to a Redis score range; no recursion
into conjunctions. -/
def sel_get_score_range (expr : Option Expr) : Option (String × String) :=
  expr.bind fun e =>
    match e with
    | .binaryOp left op right =>
      match left with
      | .identifier ident =>
        if str_lower ident == "score" then
          match op with
          | .gt =>
            match right with
            | .value (.number n) => some ("(" ++ n, "+inf")
            | _ => none
          | .gtEq =>
            match right with
            | .value (.number n) => some (n, "+inf")
            | _ => none
          | .lt =>
            match right with
            | .value (.number n) => some ("-inf", "(" ++ n)
            | _ => none
          | .ltEq =>
            match right with
            | .value (.number n) => some ("-inf", n)
            | _ => none
          | _ => none
        else none
      | _ => none
    | _ => none

/-- The per-term closure inside `sel_is_order_by_score_desc`
(src/ast/select.rs): the term is the identifier `score` (case-insensitively)
with an explicitly descending direction; `asc.map_or(false, |v| !v)` makes an
unspecified direction count as not descending. -/
def sel_score_desc_term (orderExpr : OrderExpr) : Bool :=
  match orderExpr.expr with
  | .identifier ident =>
    if str_lower ident == "score" then
      match orderExpr.asc with
      | some v => !v
      | none => false
    else false
  | _ => false

/-- Embeds `sel_is_order_by_score_desc` (src/ast/select.rs): true when ANY
ORDER BY term (not just the first) satisfies `sel_score_desc_term`
(the source writes the predicate as an inline closure under
`exprs.iter().any(...)`). -/
def sel_is_order_by_score_desc (query : Query) : Bool :=
  match query.orderBy with
  | some (.expressions exprs) => exprs.any sel_score_desc_term
  | some _ => false
  | none => false

/-! ### `src/ast/delete.rs` — pure DELETE AST extraction functions -/

namespace ast.delete

/-- Embeds `get_table_name` (src/ast/delete.rs): first identifier part of the
first FROM relation of a DELETE. -/
def get_table_name : Statement → Option String
  | .delete d =>
    match d.fromTables.head? with
    | some (.table nameParts) => nameParts.head?
    | some _ => none
    | none => none
  | _ => none

/-- Embeds `get_key_value` (src/ast/delete.rs): the top-level
`key = literal` equality of the DELETE WHERE clause (no recursion into
conjunctions). -/
def get_key_value : Statement → Option String
  | .delete d =>
    d.selection.bind fun e =>
      match e with
      | .binaryOp left op right =>
        if op ≠ .eq then none
        else
          match left with
          | .identifier ident =>
            if str_lower ident == "key" then
              match right with
              | .value (.singleQuotedString s) => some s
              | .value (.doubleQuotedString s) => some s
              | .value (.number n) => some n
              | _ => none
            else none
          | _ => none
      | _ => none
  | _ => none

/-- Embeds `extract_field_condition` (src/ast/delete.rs): recursive search
for a `field_name = literal` equality, descending into both branches of a
conjunction (left first). -/
def extract_field_condition (expr : Expr) (field_name : String) : Option String :=
  match expr with
  | .binaryOp left op right =>
    match op with
    | .eq =>
      match left with
      | .identifier ident =>
        if str_lower ident == str_lower field_name then
          match right with
          | .value (.singleQuotedString s) => some s
          | .value (.doubleQuotedString s) => some s
          | .value (.number n) => some n
          | _ => none
        else none
      | _ => none
    | .andOp =>
      (extract_field_condition left field_name).orElse fun _ =>
        extract_field_condition right field_name
    | _ => none
  | _ => none

/-- Embeds `get_field_filter` (src/ast/delete.rs). -/
def get_field_filter (stmt : Statement) (field_name : String) : Option String :=
  match stmt with
  | .delete d => d.selection.bind fun e => extract_field_condition e field_name
  | _ => none

end ast.delete

/-! ### `src/ast/update.rs` — pure UPDATE AST extraction functions -/

/-- Embeds `upd_extract_value` (src/ast/update.rs). -/
def upd_extract_value : Expr → Option String
  | .value (.singleQuotedString s) => some s
  | .value (.doubleQuotedString s) => some s
  | .value (.number n) => some n
  | _ => none

/-- Embeds `upd_get_key_value` (src/ast/update.rs): top-level `key = literal`
equality of the UPDATE WHERE clause (no recursion into conjunctions). -/
def upd_get_key_value : Statement → Option String
  | .update u =>
    u.selection.bind fun e =>
      match e with
      | .binaryOp left op right =>
        if op ≠ .eq then none
        else
          match left with
          | .identifier ident =>
            if str_lower ident == "key" then
              match right with
              | .value (.singleQuotedString s) => some s
              | .value (.doubleQuotedString s) => some s
              | .value (.number n) => some n
              | _ => none
            else none
          | _ => none
      | _ => none
  | _ => none

/-- Embeds `upd_get_field_filter` (src/ast/update.rs): top-level
`field_name = literal` equality (no recursion into conjunctions). -/
def upd_get_field_filter (stmt : Statement) (field_name : String) : Option String :=
  match stmt with
  | .update u =>
    u.selection.bind fun e =>
      match e with
      | .binaryOp left op right =>
        if op ≠ .eq then none
        else
          match left with
          | .identifier ident =>
            if str_lower ident == str_lower field_name then
              match right with
              | .value (.singleQuotedString s) => some s
              | .value (.doubleQuotedString s) => some s
              | .value (.number n) => some n
              | _ => none
            else none
          | _ => none
      | _ => none
  | _ => none

/-- Embeds `upd_get_assignments` (src/ast/update.rs): SET assignments whose
target is a column name and whose value is a string or number literal,
collected into a map; `None` when the map is empty. -/
def upd_get_assignments : Statement → Option (List (String × String))
  | .update u =>
    let field_values :=
      u.assignments.foldl
        (fun acc assignment =>
          match assignment.target with
          | .columnName nameParts =>
            match nameParts.head? with
            | some ident =>
              match upd_extract_value assignment.value with
              | some value => assoc_insert acc ident value
              | none => acc
            | none => acc
          | _ => acc)
        []
    if field_values.isEmpty then none else some field_values
  | _ => none

/-- Embeds `upd_get_table_name` (src/ast/update.rs). -/
def upd_get_table_name : Statement → Option String
  | .update u =>
    match u.table with
    | .table nameParts => nameParts.head?
    | _ => none
  | _ => none

/-! ### `src/ast/insert.rs` — pure INSERT AST extraction functions -/

/-- Embeds `ins_get_table_name` (src/ast/insert.rs). -/
def ins_get_table_name : Statement → Option String
  | .insert i =>
    match i.table with
    | .tableName nameParts => nameParts.head?
    | _ => none
  | _ => none

/-- Embeds `ins_get_column_names` (src/ast/insert.rs). -/
def ins_get_column_names : Statement → Option (List String)
  | .insert i => if i.columns.isEmpty then none else some i.columns
  | _ => none

/-- Embeds `ins_extract_value` (src/ast/insert.rs). -/
def ins_extract_value : Expr → Option String
  | .value (.singleQuotedString s) => some s
  | .value (.doubleQuotedString s) => some s
  | .value (.number n) => some n
  | _ => none

/-- Embeds `ins_get_values_as_strings` (src/ast/insert.rs): the VALUES rows
with each row's extractable literals collected (non-literals silently
dropped by `filter_map`); `None` when there are no rows or the first row is
empty. -/
def ins_get_values_as_strings : Statement → Option (List (List String))
  | .insert i =>
    i.source.bind fun source =>
      match source.body with
      | .valuesBody rows =>
        let rows := rows.map fun row => row.filterMap ins_extract_value
        if rows.isEmpty || (rows.head?.getD []).isEmpty then none else some rows
      | _ => none
  | _ => none

/-- Embeds `ins_get_values_as_maps` (src/ast/insert.rs): rows of the same
length as the column list, zipped into column-to-value maps. -/
def ins_get_values_as_maps (stmt : Statement) : Option (List (List (String × String))) :=
  (ins_get_column_names stmt).bind fun columns =>
    (ins_get_values_as_strings stmt).bind fun value_rows =>
      let maps :=
        value_rows.filterMap fun row =>
          if row.length ≠ columns.length then none
          else some ((columns.zip row).foldl (fun acc p => assoc_insert acc p.1 p.2) [])
      if maps.isEmpty then none else some maps

/-- Embeds `ins_get_column_value` (src/ast/insert.rs): a column's value in the
first VALUES row. -/
def ins_get_column_value (stmt : Statement) (column_name : String) : Option String :=
  (ins_get_values_as_maps stmt).bind fun value_maps =>
    match value_maps.head? with
    | some row => assoc_get row column_name
    | none => none

/-! ### `src/pattern/combinators.rs` — pattern-matching combinators

A Rust `Pattern<I, O>` value is embedded as a function `I → MatchResult O`
(`match_pattern` is plain application); `MatchResult<T>` is `Result<T, ()>`,
embedded as `Except Unit`. -/

/-- Embeds `MatchResult<T> = Result<T, ()>` (src/pattern/combinators.rs). -/
abbrev MatchResult (O : Type) := Except Unit O

/-- Embeds the capability of a `Pattern<I, O>` trait object: attempt to
produce an `O` from an `I` (src/pattern/combinators.rs). -/
abbrev Pattern (I O : Type) := I → MatchResult O

namespace combinators

/-- Embeds `map` (src/pattern/combinators.rs). -/
def map {I O R : Type} (pattern : Pattern I O) (f : O → R) : Pattern I R :=
  fun input => (pattern input).map f

/-- Embeds `and_then` (src/pattern/combinators.rs): feed the first pattern's
output into the second, failing as soon as the first fails. -/
def and_then {I O₁ O₂ : Type} (first : Pattern I O₁) (second : Pattern O₁ O₂) : Pattern I O₂ :=
  fun input =>
    match first input with
    | .ok intermediate => second intermediate
    | .error e => .error e

/-- Embeds `or` (src/pattern/combinators.rs): run the first pattern; only on
failure run the second against the same input. -/
def or {I O : Type} (first : Pattern I O) (second : Pattern I O) : Pattern I O :=
  fun input =>
    match first input with
    | .ok v => .ok v
    | .error _ => second input

/-- Embeds `optional` (src/pattern/combinators.rs). -/
def optional {I O : Type} (pattern : Pattern I O) : Pattern I (Option O) :=
  fun input =>
    match pattern input with
    | .ok o => .ok (some o)
    | .error _ => .ok none

/-- Embeds `pair` (src/pattern/combinators.rs). -/
def pair {I O₁ O₂ : Type} (first : Pattern I O₁) (second : Pattern I O₂) : Pattern I (O₁ × O₂) :=
  fun input =>
    match first input with
    | .ok a =>
      match second input with
      | .ok b => .ok (a, b)
      | .error e => .error e
    | .error e => .error e

/-- Embeds `always` (src/pattern/combinators.rs). -/
def always {I O : Type} (value : O) : Pattern I O :=
  fun _ => .ok value

/-- Embeds `never` (src/pattern/combinators.rs). -/
def never {I O : Type} : Pattern I O :=
  fun _ => .error ()

/-- Embeds `predicate` (src/pattern/combinators.rs). -/
def predicate {I : Type} (p : I → Bool) : Pattern I Unit :=
  fun input => if p input then .ok () else .error ()

/-- Embeds `extract` (src/pattern/combinators.rs): lift a partial function
into a pattern whose failure drops all information. -/
def extract {I O : Type} (f : I → Option O) : Pattern I O :=
  fun input =>
    match f input with
    | some o => .ok o
    | none => .error ()

end combinators

/-! ### `src/pattern/matchers/common.rs` — shared classifiers and patterns -/

namespace matchers.common

/-- Embeds `is_hash_table_name` (src/pattern/matchers/common.rs). -/
def is_hash_table_name (name : String) : Bool :=
  str_ends_with name "__hash"

/-- Embeds `is_list_table_name` (src/pattern/matchers/common.rs). -/
def is_list_table_name (name : String) : Bool :=
  str_ends_with name "__list"

/-- Embeds `is_set_table_name` (src/pattern/matchers/common.rs). -/
def is_set_table_name (name : String) : Bool :=
  str_ends_with name "__set"

/-- Embeds `is_zset_table_name` (src/pattern/matchers/common.rs). -/
def is_zset_table_name (name : String) : Bool :=
  str_ends_with name "__zset"

/-- Embeds `is_string_table_name` (src/pattern/matchers/common.rs). -/
def is_string_table_name (name : String) : Bool :=
  !is_hash_table_name name && !is_list_table_name name &&
  !is_set_table_name name && !is_zset_table_name name

end matchers.common

/-- Embeds the `RedisDataType` enumeration (src/pattern/matchers/common.rs). -/
inductive RedisDataType where
  | string
  | hash
  | list
  | set
  | sortedSet
deriving Repr, DecidableEq

namespace matchers.common

/-- Embeds `get_redis_data_type` (src/pattern/matchers/common.rs): table-kind
classification by suffix, defaulting to `string`. -/
def get_redis_data_type (table_name : String) : RedisDataType :=
  if is_hash_table_name table_name then .hash
  else if is_list_table_name table_name then .list
  else if is_set_table_name table_name then .set
  else if is_zset_table_name table_name then .sortedSet
  else .string

/-- Embeds `select_statement` (src/pattern/matchers/common.rs). -/
def select_statement : Pattern Statement Select :=
  combinators.extract fun stmt =>
    match stmt with
    | .query query =>
      match query.body with
      | .selectBody s => some s
      | _ => none
    | _ => none

/-- Embeds `wildcard_select` (src/pattern/matchers/common.rs). -/
def wildcard_select : Pattern Statement Select :=
  combinators.and_then select_statement
    (combinators.extract fun (select : Select) =>
      if select.projection.length == 1 then
        match select.projection.head? with
        | some .wildcard => some select
        | _ => none
      else none)

/-- Embeds `single_field_select` (src/pattern/matchers/common.rs). -/
def single_field_select : Pattern Statement (Select × String) :=
  combinators.and_then select_statement
    (combinators.extract fun (select : Select) =>
      if select.projection.length == 1 then
        match select.projection.head? with
        | some (.unnamedExpr (.identifier ident)) => some (select, ident)
        | _ => none
      else none)

/-- Embeds `multi_field_select` (src/pattern/matchers/common.rs). -/
def multi_field_select : Pattern Statement (Select × List String) :=
  combinators.and_then select_statement
    (combinators.extract fun (select : Select) =>
      if select.projection.length > 1 then
        let field_names := select.projection.filterMap fun item =>
          match item with
          | .unnamedExpr (.identifier ident) => some ident
          | _ => none
        if field_names.length == select.projection.length then
          some (select, field_names)
        else none
      else none)

/-- Embeds `table_with_suffix` (src/pattern/matchers/common.rs). -/
def table_with_suffix (suffix : String) : Pattern TableFactor String :=
  combinators.extract fun t =>
    match t with
    | .table nameParts =>
      nameParts.head?.bind fun table_name =>
        if str_ends_with table_name suffix then some table_name else none
    | _ => none

/-- Embeds `hash_table` (src/pattern/matchers/common.rs). -/
def hash_table : Pattern TableFactor String :=
  table_with_suffix "__hash"

/-- Embeds `list_table` (src/pattern/matchers/common.rs). -/
def list_table : Pattern TableFactor String :=
  table_with_suffix "__list"

/-- Embeds `set_table` (src/pattern/matchers/common.rs). -/
def set_table : Pattern TableFactor String :=
  table_with_suffix "__set"

/-- Embeds `zset_table` (src/pattern/matchers/common.rs). -/
def zset_table : Pattern TableFactor String :=
  table_with_suffix "__zset"

/-- Embeds `string_table` (src/pattern/matchers/common.rs). -/
def string_table : Pattern TableFactor String :=
  combinators.extract fun t =>
    match t with
    | .table nameParts =>
      nameParts.head?.bind fun table_name =>
        if !str_ends_with table_name "__hash" && !str_ends_with table_name "__list" &&
           !str_ends_with table_name "__set" && !str_ends_with table_name "__zset" then
          some table_name
        else none
    | _ => none

/-- Embeds `key_equals` (src/pattern/matchers/common.rs): top-level
`key = literal` equality on an expression. -/
def key_equals : Pattern Expr String :=
  combinators.extract fun e =>
    match e with
    | .binaryOp left op right =>
      if op == .eq then
        match left with
        | .identifier ident =>
          if str_lower ident == "key" then
            match right with
            | .value (.singleQuotedString s) => some s
            | .value (.doubleQuotedString s) => some s
            | .value (.number n) => some n
            | _ => none
          else none
        | _ => none
      else none
    | _ => none

/-- Embeds `field_equals` (src/pattern/matchers/common.rs). -/
def field_equals (field_name : String) : Pattern Expr String :=
  combinators.extract fun e =>
    match e with
    | .binaryOp left op right =>
      if op == .eq then
        match left with
        | .identifier ident =>
          if str_lower ident == str_lower field_name then
            match right with
            | .value (.singleQuotedString s) => some s
            | .value (.doubleQuotedString s) => some s
            | .value (.number n) => some n
            | _ => none
          else none
        | _ => none
      else none
    | _ => none

/-- Embeds `score_range` (src/pattern/matchers/common.rs): a single top-level
`score <cmp> number` comparison. -/
def score_range : Pattern Expr (String × String) :=
  combinators.extract fun e =>
    match e with
    | .binaryOp left op right =>
      match left with
      | .identifier ident =>
        if str_lower ident == "score" then
          match op with
          | .gt =>
            match right with
            | .value (.number n) => some ("(" ++ n, "+inf")
            | _ => none
          | .gtEq =>
            match right with
            | .value (.number n) => some (n, "+inf")
            | _ => none
          | .lt =>
            match right with
            | .value (.number n) => some ("-inf", "(" ++ n)
            | _ => none
          | .ltEq =>
            match right with
            | .value (.number n) => some ("-inf", n)
            | _ => none
          | _ => none
        else none
      | _ => none
    | _ => none

/-- Embeds `order_by_score_desc` (src/pattern/matchers/common.rs): unlike
`sel_is_order_by_score_desc`, this combinator version inspects only the FIRST
ORDER BY term. -/
def order_by_score_desc : Pattern Query Unit :=
  combinators.extract fun query =>
    match query.orderBy with
    | some (.expressions exprs) =>
      match exprs.head? with
      | some order_expr =>
        match order_expr.expr with
        | .identifier ident =>
          if str_lower ident == "score" then
            match order_expr.asc with
            | some v => if !v then some () else none
            | none => none
          else none
        | _ => none
      | none => none
    | some _ => none
    | none => none

/-- Embeds `has_limit` (src/pattern/matchers/common.rs). -/
def has_limit : Pattern Query Nat :=
  combinators.extract fun query =>
    query.limit.bind fun l =>
      match l with
      | .value (.number n) => parse_u64 n
      | _ => none

/-- Embeds `string_get` (src/pattern/matchers/common.rs): wildcard SELECT on
a string table with a top-level `key = literal` condition. -/
def string_get : Pattern Statement String :=
  combinators.extract fun stmt =>
    match wildcard_select stmt with
    | .error _ => none
    | .ok select =>
      if select.fromRel.isEmpty then none
      else
        let is_string_table :=
          match select.fromRel.head? with
          | some t => (string_table t).isOk
          | none => false
        if !is_string_table then none
        else
          match select.selection with
          | some where_clause =>
            match key_equals where_clause with
            | .ok key => some key
            | .error _ => none
          | none => none

/-- Embeds `hash_getall` (src/pattern/matchers/common.rs). -/
def hash_getall : Pattern Statement String :=
  combinators.extract fun stmt =>
    match wildcard_select stmt with
    | .error _ => none
    | .ok select =>
      if select.fromRel.isEmpty then none
      else
        let is_hash_table :=
          match select.fromRel.head? with
          | some t => (hash_table t).isOk
          | none => false
        if !is_hash_table then none
        else
          match select.selection with
          | some where_clause =>
            match key_equals where_clause with
            | .ok key => some key
            | .error _ => none
          | none => none

end matchers.common

/-! ### `src/pattern/matchers/select.rs` — SELECT predicates -/

namespace matchers.select

/-- Embeds `is_wildcard_select` (src/pattern/matchers/select.rs). -/
def is_wildcard_select (stmt : Statement) : Bool :=
  (((sel_get_query stmt).bind fun q => sel_get_select q).map fun select =>
    select.projection.length == 1 &&
      sel_is_wildcard (select.projection.headD .otherItem)).getD false

/-- Embeds `is_single_field_select` (src/pattern/matchers/select.rs). -/
def is_single_field_select (stmt : Statement) : Bool :=
  (((sel_get_query stmt).bind fun q => sel_get_select q).map fun select =>
    select.projection.length == 1 &&
      (sel_get_field_name (select.projection.headD .otherItem)).isSome).getD false

/-- Embeds `is_multi_field_select` (src/pattern/matchers/select.rs): more
than one projected item and EVERY item a bare identifier. -/
def is_multi_field_select (stmt : Statement) : Bool :=
  (((sel_get_query stmt).bind fun q => sel_get_select q).map fun select =>
    decide (select.projection.length > 1) &&
      select.projection.all fun item => (sel_get_field_name item).isSome).getD false

/-- Embeds `is_hash_table` (src/pattern/matchers/select.rs). -/
def is_hash_table (stmt : Statement) : Bool :=
  ((((sel_get_query stmt).bind fun q => sel_get_select q).bind fun s =>
    sel_get_table_name s).map fun name => str_ends_with name "__hash").getD false

/-- Embeds `is_list_table` (src/pattern/matchers/select.rs). -/
def is_list_table (stmt : Statement) : Bool :=
  ((((sel_get_query stmt).bind fun q => sel_get_select q).bind fun s =>
    sel_get_table_name s).map fun name => str_ends_with name "__list").getD false

/-- Embeds `is_set_table` (src/pattern/matchers/select.rs). -/
def is_set_table (stmt : Statement) : Bool :=
  ((((sel_get_query stmt).bind fun q => sel_get_select q).bind fun s =>
    sel_get_table_name s).map fun name => str_ends_with name "__set").getD false

/-- Embeds `is_zset_table` (src/pattern/matchers/select.rs). -/
def is_zset_table (stmt : Statement) : Bool :=
  ((((sel_get_query stmt).bind fun q => sel_get_select q).bind fun s =>
    sel_get_table_name s).map fun name => str_ends_with name "__zset").getD false

/-- Embeds `is_string_table` (src/pattern/matchers/select.rs). -/
def is_string_table (stmt : Statement) : Bool :=
  ((((sel_get_query stmt).bind fun q => sel_get_select q).bind fun s =>
    sel_get_table_name s).map fun name =>
      !str_ends_with name "__hash" && !str_ends_with name "__list" &&
      !str_ends_with name "__set" && !str_ends_with name "__zset").getD false

/-- Embeds `has_key_equals` (src/pattern/matchers/select.rs): delegates to
`sel_get_key_value`, which inspects only the TOP node of the WHERE tree. -/
def has_key_equals (stmt : Statement) : Bool :=
  (((sel_get_query stmt).bind fun q => sel_get_select q).map fun select =>
    (sel_get_key_value select.selection).isSome).getD false

/-- Embeds `has_field_equals` (src/pattern/matchers/select.rs). -/
def has_field_equals (stmt : Statement) (field_name : String) : Bool :=
  (((sel_get_query stmt).bind fun q => sel_get_select q).map fun select =>
    (sel_get_field_filter select.selection field_name).isSome).getD false

/-- Embeds `has_score_range` (src/pattern/matchers/select.rs). -/
def has_score_range (stmt : Statement) : Bool :=
  (((sel_get_query stmt).bind fun q => sel_get_select q).map fun select =>
    (sel_get_score_range select.selection).isSome).getD false

/-- Embeds `has_order_by_score_desc` (src/pattern/matchers/select.rs):
delegates to `sel_is_order_by_score_desc`, which accepts ANY descending
`score` term in the ORDER BY list, not only the first. -/
def has_order_by_score_desc (stmt : Statement) : Bool :=
  ((sel_get_query stmt).map fun query => sel_is_order_by_score_desc query).getD false

/-- Embeds `has_limit` (src/pattern/matchers/select.rs). -/
def has_limit (stmt : Statement) : Bool :=
  ((sel_get_query stmt).map fun query => query.limit.isSome).getD false

/-- Embeds `is_string_get` (src/pattern/matchers/select.rs). -/
def is_string_get (stmt : Statement) : Bool :=
  is_wildcard_select stmt && is_string_table stmt && has_key_equals stmt

/-- Embeds `is_hash_getall` (src/pattern/matchers/select.rs). -/
def is_hash_getall (stmt : Statement) : Bool :=
  is_wildcard_select stmt && is_hash_table stmt && has_key_equals stmt

/-- Embeds `is_hash_get` (src/pattern/matchers/select.rs). -/
def is_hash_get (stmt : Statement) : Bool :=
  is_single_field_select stmt && is_hash_table stmt && has_key_equals stmt

/-- Embeds `is_hash_hmget` (src/pattern/matchers/select.rs). -/
def is_hash_hmget (stmt : Statement) : Bool :=
  is_multi_field_select stmt && is_hash_table stmt && has_key_equals stmt

/-- Embeds `is_list_getall` (src/pattern/matchers/select.rs).  Note: no
guard against a LIMIT clause or an `index` condition, so every list-table
wildcard SELECT with a top-level key condition matches. -/
def is_list_getall (stmt : Statement) : Bool :=
  is_wildcard_select stmt && is_list_table stmt && has_key_equals stmt

/-- Embeds `is_list_get_index` (src/pattern/matchers/select.rs). -/
def is_list_get_index (stmt : Statement) : Bool :=
  is_wildcard_select stmt && is_list_table stmt && has_key_equals stmt &&
    has_field_equals stmt "index"

/-- Embeds `is_list_get_range` (src/pattern/matchers/select.rs). -/
def is_list_get_range (stmt : Statement) : Bool :=
  is_wildcard_select stmt && is_list_table stmt && has_key_equals stmt && has_limit stmt

/-- Embeds `is_set_getall` (src/pattern/matchers/select.rs). -/
def is_set_getall (stmt : Statement) : Bool :=
  is_wildcard_select stmt && is_set_table stmt && has_key_equals stmt

/-- Embeds `is_set_ismember` (src/pattern/matchers/select.rs). -/
def is_set_ismember (stmt : Statement) : Bool :=
  is_wildcard_select stmt && is_set_table stmt && has_key_equals stmt &&
    has_field_equals stmt "member"

/-- Embeds `is_zset_getall` (src/pattern/matchers/select.rs). -/
def is_zset_getall (stmt : Statement) : Bool :=
  is_wildcard_select stmt && is_zset_table stmt && has_key_equals stmt

/-- Embeds `is_zset_get_score_range` (src/pattern/matchers/select.rs). -/
def is_zset_get_score_range (stmt : Statement) : Bool :=
  is_wildcard_select stmt && is_zset_table stmt && has_key_equals stmt &&
    has_score_range stmt

/-- Embeds `is_zset_get_reversed` (src/pattern/matchers/select.rs). -/
def is_zset_get_reversed (stmt : Statement) : Bool :=
  is_wildcard_select stmt && is_zset_table stmt && has_key_equals stmt &&
    has_order_by_score_desc stmt

/-- Embeds `query_has_limit` (src/pattern/matchers/select.rs). -/
def query_has_limit (query : Query) : Option Nat :=
  query.limit.bind fun l =>
    match l with
    | .value (.number n) => parse_u64 n
    | _ => none

/-- Embeds `is_string_get_value` (src/pattern/matchers/select.rs): SELECT of
the single bare identifier `value` from a string table with a top-level key
condition. -/
def is_string_get_value (stmt : Statement) : Bool :=
  match sel_get_query stmt with
  | none => false
  | some query =>
    match sel_get_select query with
    | none => false
    | some select =>
      if !is_string_table stmt then false
      else if select.projection.length ≠ 1 then false
      else
        let is_value_field :=
          match select.projection.headD .otherItem with
          | .unnamedExpr (.identifier ident) => str_lower ident == "value"
          | _ => false
        if !is_value_field then false
        else has_key_equals stmt

end matchers.select

/-! ### `src/pattern/matchers/insert.rs` — INSERT predicates -/

namespace matchers.insert

/-- Embeds `is_insert` (src/pattern/matchers/insert.rs). -/
def is_insert : Statement → Bool
  | .insert _ => true
  | _ => false

/-- Embeds `get_table_name` (src/pattern/matchers/insert.rs). -/
def get_table_name : Statement → Option String
  | .insert i =>
    match i.table with
    | .tableName nameParts => nameParts.head?
    | _ => none
  | _ => none

/-- Embeds `is_hash_table` (src/pattern/matchers/insert.rs). -/
def is_hash_table (stmt : Statement) : Bool :=
  ((get_table_name stmt).map fun name => str_ends_with name "__hash").getD false

/-- Embeds `is_list_table` (src/pattern/matchers/insert.rs). -/
def is_list_table (stmt : Statement) : Bool :=
  ((get_table_name stmt).map fun name => str_ends_with name "__list").getD false

/-- Embeds `is_set_table` (src/pattern/matchers/insert.rs). -/
def is_set_table (stmt : Statement) : Bool :=
  ((get_table_name stmt).map fun name => str_ends_with name "__set").getD false

/-- Embeds `is_zset_table` (src/pattern/matchers/insert.rs). -/
def is_zset_table (stmt : Statement) : Bool :=
  ((get_table_name stmt).map fun name => str_ends_with name "__zset").getD false

/-- Embeds `is_string_table` (src/pattern/matchers/insert.rs). -/
def is_string_table (stmt : Statement) : Bool :=
  ((get_table_name stmt).map fun name =>
    !str_ends_with name "__hash" && !str_ends_with name "__list" &&
    !str_ends_with name "__set" && !str_ends_with name "__zset").getD false

/-- Embeds `has_columns` (src/pattern/matchers/insert.rs): all required
column names occur (case-insensitively) among the INSERT columns. -/
def has_columns (stmt : Statement) (required_columns : List String) : Bool :=
  match stmt with
  | .insert i =>
    let columns_lowercase := i.columns.map str_lower
    required_columns.all fun col => columns_lowercase.contains (str_lower col)
  | _ => false

/-- Embeds `has_exact_columns` (src/pattern/matchers/insert.rs). -/
def has_exact_columns (stmt : Statement) (required_columns : List String) : Bool :=
  match stmt with
  | .insert i =>
    if i.columns.length ≠ required_columns.length then false
    else
      let columns_lowercase := i.columns.map str_lower
      required_columns.all fun col => columns_lowercase.contains (str_lower col)
  | _ => false

/-- Embeds `has_values` (src/pattern/matchers/insert.rs). -/
def has_values (stmt : Statement) : Bool :=
  match stmt with
  | .insert i =>
    (i.source.map fun query =>
      match query.body with
      | .valuesBody rows => !rows.isEmpty
      | _ => false).getD false
  | _ => false

/-- Embeds `is_string_set` (src/pattern/matchers/insert.rs). -/
def is_string_set (stmt : Statement) : Bool :=
  is_insert stmt && is_string_table stmt && has_exact_columns stmt ["key", "value"] &&
    has_values stmt

/-- Embeds `is_hash_set` (src/pattern/matchers/insert.rs). -/
def is_hash_set (stmt : Statement) : Bool :=
  is_insert stmt && is_hash_table stmt && has_columns stmt ["key"] && has_values stmt

/-- Embeds `is_list_push` (src/pattern/matchers/insert.rs). -/
def is_list_push (stmt : Statement) : Bool :=
  is_insert stmt && is_list_table stmt && has_exact_columns stmt ["key", "value"] &&
    has_values stmt

/-- Embeds `is_set_add` (src/pattern/matchers/insert.rs). -/
def is_set_add (stmt : Statement) : Bool :=
  is_insert stmt && is_set_table stmt && has_exact_columns stmt ["key", "member"] &&
    has_values stmt

/-- Embeds `is_zset_add` (src/pattern/matchers/insert.rs). -/
def is_zset_add (stmt : Statement) : Bool :=
  is_insert stmt && is_zset_table stmt &&
    has_exact_columns stmt ["key", "member", "score"] && has_values stmt

end matchers.insert

/-! ### `src/pattern/matchers/update.rs` — UPDATE predicates -/

namespace matchers.update

/-- Embeds `is_update` (src/pattern/matchers/update.rs). -/
def is_update : Statement → Bool
  | .update _ => true
  | _ => false

/-- Embeds `is_hash_table` (src/pattern/matchers/update.rs). -/
def is_hash_table (stmt : Statement) : Bool :=
  ((upd_get_table_name stmt).map fun name => str_ends_with name "__hash").getD false

/-- Embeds `is_list_table` (src/pattern/matchers/update.rs). -/
def is_list_table (stmt : Statement) : Bool :=
  ((upd_get_table_name stmt).map fun name => str_ends_with name "__list").getD false

/-- Embeds `is_set_table` (src/pattern/matchers/update.rs). -/
def is_set_table (stmt : Statement) : Bool :=
  ((upd_get_table_name stmt).map fun name => str_ends_with name "__set").getD false

/-- Embeds `is_zset_table` (src/pattern/matchers/update.rs). -/
def is_zset_table (stmt : Statement) : Bool :=
  ((upd_get_table_name stmt).map fun name => str_ends_with name "__zset").getD false

/-- Embeds `is_string_table` (src/pattern/matchers/update.rs). -/
def is_string_table (stmt : Statement) : Bool :=
  ((upd_get_table_name stmt).map fun name =>
    !str_ends_with name "__hash" && !str_ends_with name "__list" &&
    !str_ends_with name "__set" && !str_ends_with name "__zset").getD false

/-- Embeds `has_key_equals` (src/pattern/matchers/update.rs). -/
def has_key_equals (stmt : Statement) : Bool :=
  (upd_get_key_value stmt).isSome

/-- Embeds `has_field_equals` (src/pattern/matchers/update.rs). -/
def has_field_equals (stmt : Statement) (field_name : String) : Bool :=
  (upd_get_field_filter stmt field_name).isSome

/-- Embeds `has_assignment` (src/pattern/matchers/update.rs). -/
def has_assignment (stmt : Statement) (field_name : String) : Bool :=
  match upd_get_assignments stmt with
  | some assignments => assoc_contains assignments field_name
  | none => false

/-- Embeds `is_string_update` (src/pattern/matchers/update.rs). -/
def is_string_update (stmt : Statement) : Bool :=
  is_update stmt && is_string_table stmt && has_key_equals stmt &&
    has_assignment stmt "value"

/-- Embeds `is_hash_update` (src/pattern/matchers/update.rs). -/
def is_hash_update (stmt : Statement) : Bool :=
  is_update stmt && is_hash_table stmt && has_key_equals stmt &&
    ((upd_get_assignments stmt).map fun a => !a.isEmpty).getD false

/-- Embeds `is_list_update` (src/pattern/matchers/update.rs). -/
def is_list_update (stmt : Statement) : Bool :=
  is_update stmt && is_list_table stmt && has_key_equals stmt &&
    has_field_equals stmt "index" && has_assignment stmt "value"

/-- Embeds `is_zset_update` (src/pattern/matchers/update.rs). -/
def is_zset_update (stmt : Statement) : Bool :=
  is_update stmt && is_zset_table stmt && has_key_equals stmt &&
    has_field_equals stmt "member" && has_assignment stmt "score"

end matchers.update

/-! ### `src/pattern/matchers/delete.rs` — DELETE predicates -/

namespace matchers.delete

/-- Embeds `is_delete` (src/pattern/matchers/delete.rs). -/
def is_delete : Statement → Bool
  | .delete _ => true
  | _ => false

/-- Embeds `is_hash_table` (src/pattern/matchers/delete.rs). -/
def is_hash_table (stmt : Statement) : Bool :=
  match ast.delete.get_table_name stmt with
  | some name => str_ends_with name "__hash"
  | none => false

/-- Embeds `is_list_table` (src/pattern/matchers/delete.rs). -/
def is_list_table (stmt : Statement) : Bool :=
  match ast.delete.get_table_name stmt with
  | some name => str_ends_with name "__list"
  | none => false

/-- Embeds `is_set_table` (src/pattern/matchers/delete.rs). -/
def is_set_table (stmt : Statement) : Bool :=
  match ast.delete.get_table_name stmt with
  | some name => str_ends_with name "__set"
  | none => false

/-- Embeds `is_zset_table` (src/pattern/matchers/delete.rs). -/
def is_zset_table (stmt : Statement) : Bool :=
  match ast.delete.get_table_name stmt with
  | some name => str_ends_with name "__zset"
  | none => false

/-- Embeds `is_string_table` (src/pattern/matchers/delete.rs). -/
def is_string_table (stmt : Statement) : Bool :=
  match ast.delete.get_table_name stmt with
  | some name =>
    !str_ends_with name "__hash" && !str_ends_with name "__list" &&
    !str_ends_with name "__set" && !str_ends_with name "__zset"
  | none => false

/-- Embeds `has_key_equals` (src/pattern/matchers/delete.rs). -/
def has_key_equals (stmt : Statement) : Bool :=
  (ast.delete.get_key_value stmt).isSome

/-- Embeds `has_field_equals` (src/pattern/matchers/delete.rs). -/
def has_field_equals (stmt : Statement) (field_name : String) : Bool :=
  (ast.delete.get_field_filter stmt field_name).isSome

/-- Embeds `is_string_delete` (src/pattern/matchers/delete.rs). -/
def is_string_delete (stmt : Statement) : Bool :=
  is_delete stmt && is_string_table stmt && has_key_equals stmt

/-- Embeds `is_hash_delete` (src/pattern/matchers/delete.rs). -/
def is_hash_delete (stmt : Statement) : Bool :=
  is_delete stmt && is_hash_table stmt && has_key_equals stmt &&
    !has_field_equals stmt "field"

/-- Embeds `is_hash_delete_field` (src/pattern/matchers/delete.rs). -/
def is_hash_delete_field (stmt : Statement) : Bool :=
  is_delete stmt && is_hash_table stmt && has_key_equals stmt &&
    has_field_equals stmt "field"

/-- Embeds `is_list_delete` (src/pattern/matchers/delete.rs). -/
def is_list_delete (stmt : Statement) : Bool :=
  is_delete stmt && is_list_table stmt && has_key_equals stmt &&
    !has_field_equals stmt "value"

/-- Embeds `is_list_delete_value` (src/pattern/matchers/delete.rs). -/
def is_list_delete_value (stmt : Statement) : Bool :=
  is_delete stmt && is_list_table stmt && has_key_equals stmt &&
    has_field_equals stmt "value"

/-- Embeds `is_set_delete` (src/pattern/matchers/delete.rs). -/
def is_set_delete (stmt : Statement) : Bool :=
  is_delete stmt && is_set_table stmt && has_key_equals stmt &&
    !has_field_equals stmt "member"

/-- Embeds `is_set_delete_member` (src/pattern/matchers/delete.rs). -/
def is_set_delete_member (stmt : Statement) : Bool :=
  is_delete stmt && is_set_table stmt && has_key_equals stmt &&
    has_field_equals stmt "member"

/-- Embeds `is_zset_delete` (src/pattern/matchers/delete.rs). -/
def is_zset_delete (stmt : Statement) : Bool :=
  is_delete stmt && is_zset_table stmt && has_key_equals stmt &&
    !has_field_equals stmt "member"

/-- Embeds `is_zset_delete_member` (src/pattern/matchers/delete.rs). -/
def is_zset_delete_member (stmt : Statement) : Bool :=
  is_delete stmt && is_zset_table stmt && has_key_equals stmt &&
    has_field_equals stmt "member"

end matchers.delete

/-! ### `src/pattern/extractors/common.rs` -/

/-- Embeds `extract_key_from_condition` (src/pattern/extractors/common.rs):
recursive search for a `key = literal` equality, descending into both
branches of a conjunction (left first).  Unlike `sel_get_key_value`, this
version DOES recurse into `AND` nodes. -/
def extract_key_from_condition (expr : Expr) : Option String :=
  match expr with
  | .binaryOp left op right =>
    if op == .eq then
      match left with
      | .identifier ident =>
        if str_lower ident == "key" then
          match right with
          | .value (.singleQuotedString s) => some s
          | .value (.doubleQuotedString s) => some s
          | .value (.number n) => some n
          | _ => none
        else none
      | _ => none
    else if op == .andOp then
      (extract_key_from_condition left).orElse fun _ => extract_key_from_condition right
    else none
  | _ => none

/-- Embeds `determine_table_type` (src/pattern/extractors/common.rs); an
identical private copy lives in src/commands.rs (lines 188-200). -/
def determine_table_type (table : String) : String :=
  if str_ends_with table "__hash" then "hash"
  else if str_ends_with table "__list" then "list"
  else if str_ends_with table "__set" then "set"
  else if str_ends_with table "__zset" then "zset"
  else "string"

/-! ### `src/pattern/extractors/zset_ops.rs` -/

/-- Embeds `ZSetGetAllInfo` (src/pattern/extractors/zset_ops.rs). -/
structure ZSetGetAllInfo where
  key : String
deriving Repr, DecidableEq

/-- Embeds `ZSetScoreRangeInfo` (src/pattern/extractors/zset_ops.rs). -/
structure ZSetScoreRangeInfo where
  key : String
  min : String
  max : String
deriving Repr, DecidableEq

/-- Embeds `ZSetGetReversedInfo` (src/pattern/extractors/zset_ops.rs). -/
structure ZSetGetReversedInfo where
  key : String
deriving Repr, DecidableEq

/-- Embeds `extract_score_range` (src/pattern/extractors/zset_ops.rs):
single `score <cmp> number` comparisons produce a Redis score range; for an
`AND` node whose two branches both produce ranges, the result pairs the LEFT
branch's lower bound with the RIGHT branch's upper bound; if only one branch
produces a range, that range is passed through unchanged. -/
def extract_score_range (expr : Expr) : Option (String × String) :=
  match expr with
  | .binaryOp left op right =>
    let simple : Option (String × String) :=
      match left with
      | .identifier ident =>
        if str_lower ident == "score" then
          match op with
          | .gt =>
            match right with
            | .value (.number n) => some ("(" ++ n, "+inf")
            | _ => none
          | .gtEq =>
            match right with
            | .value (.number n) => some (n, "+inf")
            | _ => none
          | .lt =>
            match right with
            | .value (.number n) => some ("-inf", "(" ++ n)
            | _ => none
          | .ltEq =>
            match right with
            | .value (.number n) => some ("-inf", n)
            | _ => none
          | _ => none
        else none
      | _ => none
    match simple with
    | some range => some range
    | none =>
      if op == .andOp then
        match extract_score_range left, extract_score_range right with
        | some (min1, _), some (_, max2) => some (min1, max2)
        | some range, none => some range
        | none, some range => some range
        | none, none => none
      else none
  | _ => none

/-- Embeds `extract_zset_getall` (src/pattern/extractors/zset_ops.rs). -/
def extract_zset_getall (stmt : Statement) : Option ZSetGetAllInfo :=
  match matchers.common.wildcard_select stmt with
  | .error _ => none
  | .ok select =>
    if select.fromRel.isEmpty then none
    else
      let is_zset_table :=
        match select.fromRel.head? with
        | some t => (matchers.common.zset_table t).isOk
        | none => false
      if !is_zset_table then none
      else
        match select.selection with
        | some where_clause =>
          match matchers.common.score_range where_clause with
          | .ok _ => none
          | .error _ =>
            match matchers.common.key_equals where_clause with
            | .ok key => some ⟨key⟩
            | .error _ => none
        | none => none

/-- Embeds `extract_score_range_from_condition` (src/pattern/extractors/zset_ops.rs). -/
def extract_score_range_from_condition (expr : Expr) : Option (String × String) :=
  extract_score_range expr

/-- Embeds `extract_zset_get_score_range` (src/pattern/extractors/zset_ops.rs):
loops over the FROM relations; for the first zset-suffixed table with a key
and a score range in the WHERE clause, returns the info record. -/
def extract_zset_get_score_range (stmt : Statement) : Option ZSetScoreRangeInfo :=
  match stmt with
  | .query query =>
    match query.body with
    | .selectBody select =>
      select.fromRel.findSome? fun rel =>
        match rel with
        | .table nameParts =>
          nameParts.head?.bind fun table_name =>
            if str_ends_with table_name "__zset" then
              select.selection.bind fun expr =>
                (extract_key_from_condition expr).bind fun key =>
                  (extract_score_range_from_condition expr).map fun range =>
                    ⟨key, range.1, range.2⟩
            else none
        | _ => none
    | _ => none
  | _ => none

/-- Embeds `extract_zset_get_reversed` (src/pattern/extractors/zset_ops.rs). -/
def extract_zset_get_reversed (stmt : Statement) : Option ZSetGetReversedInfo :=
  match stmt with
  | .query query =>
    if !(matchers.common.order_by_score_desc query).isOk then none
    else
      match query.body with
      | .selectBody select =>
        if select.projection.length == 1 &&
           sel_is_wildcard (select.projection.headD .otherItem) then
          if select.fromRel.isEmpty then none
          else
            let is_zset_table :=
              match select.fromRel.head? with
              | some t => (matchers.common.zset_table t).isOk
              | none => false
            if !is_zset_table then none
            else
              match select.selection with
              | some where_clause =>
                match matchers.common.key_equals where_clause with
                | .ok key => some ⟨key⟩
                | .error _ => none
              | none => none
        else none
      | _ => none
  | _ => none

/-! ### `src/pattern/extractors/string_ops.rs` and `hash_ops.rs` -/

/-- Embeds `StringGetInfo` (src/pattern/extractors/string_ops.rs). -/
structure StringGetInfo where
  key : String
deriving Repr, DecidableEq

/-- Embeds `extract_string_get` (src/pattern/extractors/string_ops.rs). -/
def extract_string_get (stmt : Statement) : Option StringGetInfo :=
  match matchers.common.string_get stmt with
  | .ok key => some ⟨key⟩
  | .error _ => none

/-- Embeds `HashGetAllInfo` (src/pattern/extractors/hash_ops.rs). -/
structure HashGetAllInfo where
  key : String
deriving Repr, DecidableEq

/-- Embeds `extract_hash_getall` (src/pattern/extractors/hash_ops.rs). -/
def extract_hash_getall (stmt : Statement) : Option HashGetAllInfo :=
  match matchers.common.hash_getall stmt with
  | .ok key => some ⟨key⟩
  | .error _ => none

/-- Embeds `HashGetInfo` (src/pattern/extractors/hash_ops.rs). -/
structure HashGetInfo where
  key : String
  field : String
deriving Repr, DecidableEq

/-- Embeds `extract_hash_get` (src/pattern/extractors/hash_ops.rs). -/
def extract_hash_get (stmt : Statement) : Option HashGetInfo :=
  match matchers.common.single_field_select stmt with
  | .error _ => none
  | .ok (select, field) =>
    if select.fromRel.isEmpty then none
    else
      let is_hash_table :=
        match select.fromRel.head? with
        | some t => (matchers.common.hash_table t).isOk
        | none => false
      if !is_hash_table then none
      else
        match select.selection with
        | some where_clause =>
          match matchers.common.key_equals where_clause with
          | .ok key => some ⟨key, field⟩
          | .error _ => none
        | none => none

/-- Embeds `HashMultiGetInfo` (src/pattern/extractors/hash_ops.rs). -/
structure HashMultiGetInfo where
  key : String
  fields : List String
deriving Repr, DecidableEq

/-- Embeds `extract_hash_multi_get` (src/pattern/extractors/hash_ops.rs). -/
def extract_hash_multi_get (stmt : Statement) : Option HashMultiGetInfo :=
  match matchers.common.multi_field_select stmt with
  | .error _ => none
  | .ok (select, fields) =>
    if select.fromRel.isEmpty then none
    else
      let is_hash_table :=
        match select.fromRel.head? with
        | some t => (matchers.common.hash_table t).isOk
        | none => false
      if !is_hash_table then none
      else
        match select.selection with
        | some where_clause =>
          match matchers.common.key_equals where_clause with
          | .ok key => some ⟨key, fields⟩
          | .error _ => none
        | none => none

/-! ### `src/pattern/extractors/list_ops.rs` -/

/-- Embeds `ListGetAllInfo` (src/pattern/extractors/list_ops.rs). -/
structure ListGetAllInfo where
  key : String
deriving Repr, DecidableEq

/-- Embeds `ListIndexInfo` (src/pattern/extractors/list_ops.rs). -/
structure ListIndexInfo where
  key : String
  index : String
deriving Repr, DecidableEq

/-- Embeds `ListGetRangeInfo` (src/pattern/extractors/list_ops.rs); `limit`
is a Rust `u64`. -/
structure ListGetRangeInfo where
  key : String
  limit : Nat
deriving Repr, DecidableEq

/-- Embeds `extract_list_index` (src/pattern/extractors/list_ops.rs):
recursive search for an `index = number` equality through `AND` nodes. -/
def extract_list_index (expr : Expr) : Option String :=
  match expr with
  | .binaryOp left op right =>
    let simple : Option String :=
      match left with
      | .identifier ident =>
        if str_lower ident == "index" && op == .eq then
          match right with
          | .value (.number n) => some n
          | _ => none
        else none
      | _ => none
    match simple with
    | some n => some n
    | none =>
      if op == .andOp then
        (extract_list_index left).orElse fun _ => extract_list_index right
      else none
  | _ => none

/-- Embeds `extract_list_getall` (src/pattern/extractors/list_ops.rs):
wildcard SELECT on a list table with a key condition and NO top-level `index`
condition. -/
def extract_list_getall (stmt : Statement) : Option ListGetAllInfo :=
  match matchers.common.wildcard_select stmt with
  | .error _ => none
  | .ok select =>
    if select.fromRel.isEmpty then none
    else
      let is_list_table :=
        match select.fromRel.head? with
        | some t => (matchers.common.list_table t).isOk
        | none => false
      if !is_list_table then none
      else
        match select.selection with
        | some where_clause =>
          match matchers.common.field_equals "index" where_clause with
          | .ok _ => none
          | .error _ =>
            match matchers.common.key_equals where_clause with
            | .ok key => some ⟨key⟩
            | .error _ => none
        | none => none

/-- Embeds `extract_list_get_range` (src/pattern/extractors/list_ops.rs). -/
def extract_list_get_range (stmt : Statement) : Option ListGetRangeInfo :=
  match matchers.common.wildcard_select stmt with
  | .error _ => none
  | .ok select =>
    if select.fromRel.isEmpty then none
    else
      let is_list_table :=
        match select.fromRel.head? with
        | some t => (matchers.common.list_table t).isOk
        | none => false
      if !is_list_table then none
      else
        match select.selection with
        | none => none
        | some where_clause =>
          match matchers.common.key_equals where_clause with
          | .error _ => none
          | .ok key =>
            match stmt with
            | .query query =>
              match matchers.select.query_has_limit query with
              | some limit_value => some ⟨key, limit_value⟩
              | none => none
            | _ => none

/-- Embeds `extract_list_get_index` (src/pattern/extractors/list_ops.rs):
loops over the FROM relations; for the first list-suffixed table with a key
and an `index` condition, returns the info record. -/
def extract_list_get_index (stmt : Statement) : Option ListIndexInfo :=
  match stmt with
  | .query query =>
    match query.body with
    | .selectBody select =>
      select.fromRel.findSome? fun rel =>
        match rel with
        | .table nameParts =>
          nameParts.head?.bind fun table_name =>
            if str_ends_with table_name "__list" then
              select.selection.bind fun expr =>
                (extract_key_from_condition expr).bind fun key =>
                  (extract_list_index expr).map fun index => ⟨key, index⟩
            else none
        | _ => none
    | _ => none
  | _ => none

/-! ### `src/pattern/extractors/set_ops.rs` -/

/-- Embeds `SetGetAllInfo` (src/pattern/extractors/set_ops.rs). -/
structure SetGetAllInfo where
  key : String
deriving Repr, DecidableEq

/-- Embeds `SetMemberInfo` (src/pattern/extractors/set_ops.rs). -/
structure SetMemberInfo where
  key : String
  member : String
deriving Repr, DecidableEq

/-- Embeds `extract_set_member` (src/pattern/extractors/set_ops.rs):
recursive search for a `member = quoted-string` equality through `AND`
nodes (numbers are NOT accepted here). -/
def extract_set_member (expr : Expr) : Option String :=
  match expr with
  | .binaryOp left op right =>
    let simple : Option String :=
      match left with
      | .identifier ident =>
        if str_lower ident == "member" && op == .eq then
          match right with
          | .value (.singleQuotedString s) => some s
          | .value (.doubleQuotedString s) => some s
          | _ => none
        else none
      | _ => none
    match simple with
    | some s => some s
    | none =>
      if op == .andOp then
        (extract_set_member left).orElse fun _ => extract_set_member right
      else none
  | _ => none

/-- Embeds `extract_set_getall` (src/pattern/extractors/set_ops.rs). -/
def extract_set_getall (stmt : Statement) : Option SetGetAllInfo :=
  match matchers.common.wildcard_select stmt with
  | .error _ => none
  | .ok select =>
    if select.fromRel.isEmpty then none
    else
      let is_set_table :=
        match select.fromRel.head? with
        | some t => (matchers.common.set_table t).isOk
        | none => false
      if !is_set_table then none
      else
        match select.selection with
        | some where_clause =>
          match matchers.common.field_equals "member" where_clause with
          | .ok _ => none
          | .error _ =>
            match matchers.common.key_equals where_clause with
            | .ok key => some ⟨key⟩
            | .error _ => none
        | none => none

/-- Embeds `extract_member_from_condition` (src/pattern/extractors/set_ops.rs). -/
def extract_member_from_condition (expr : Expr) : Option String :=
  match expr with
  | .binaryOp left op right =>
    if op == .eq &&
       (match left with
        | .identifier ident => str_lower ident == "member"
        | _ => false) then
      match right with
      | .value (.singleQuotedString s) => some s
      | .value (.doubleQuotedString s) => some s
      | _ => none
    else if op == .andOp then
      (extract_member_from_condition left).orElse fun _ =>
        extract_member_from_condition right
    else none
  | _ => none

/-- Embeds `extract_set_ismember` (src/pattern/extractors/set_ops.rs):
loops over the FROM relations; for the first set-suffixed table with a key
and a member condition, returns the info record. -/
def extract_set_ismember (stmt : Statement) : Option SetMemberInfo :=
  match stmt with
  | .query query =>
    match query.body with
    | .selectBody select =>
      select.fromRel.findSome? fun rel =>
        match rel with
        | .table nameParts =>
          nameParts.head?.bind fun table_name =>
            if str_ends_with table_name "__set" then
              select.selection.bind fun expr =>
                (extract_key_from_condition expr).bind fun key =>
                  (extract_member_from_condition expr).map fun member =>
                    ⟨key, member⟩
            else none
        | _ => none
    | _ => none
  | _ => none

/-! ### `src/pattern/extractors/insert_ops.rs` and `delete_ops.rs` -/

/-- Embeds `InsertCommandInfo` (src/pattern/extractors/insert_ops.rs);
`fields` models the `HashMap<String, String>` of column-to-value pairs. -/
structure InsertCommandInfo where
  table : String
  key : String
  fields : List (String × String)
deriving Repr, DecidableEq

/-- Embeds `extract_values_from_source` (src/pattern/extractors/insert_ops.rs):
the literal texts of a single VALUES row; any non-literal aborts. -/
def extract_values_from_source (source : Query) : Option (List String) :=
  match source.body with
  | .valuesBody rows =>
    match rows with
    | [row] =>
      row.foldr
        (fun value acc =>
          acc.bind fun rest =>
            match value with
            | .value (.singleQuotedString s) => some (s :: rest)
            | .value (.doubleQuotedString s) => some (s :: rest)
            | .value (.number n) => some (n :: rest)
            | _ => none)
        (some [])
    | _ => none
  | _ => none

/-- Embeds `extract_insert_command` (src/pattern/extractors/insert_ops.rs). -/
def extract_insert_command (stmt : Statement) : Option InsertCommandInfo :=
  match stmt with
  | .insert insert =>
    match insert.table with
    | .tableName nameParts =>
      nameParts.head?.bind fun table =>
        insert.source.bind fun source =>
          (extract_values_from_source source).bind fun values =>
            if insert.columns.length ≠ values.length then none
            else
              let field_map :=
                (insert.columns.zip values).foldl
                  (fun acc p => assoc_insert acc p.1 p.2) []
              (assoc_get field_map "key").map fun key => ⟨table, key, field_map⟩
    | .tableFunction => none
  | _ => none

/-- Embeds `DeleteCommandInfo` (src/pattern/extractors/delete_ops.rs). -/
structure DeleteCommandInfo where
  table : String
  key : String
  member : Option String
  index : Option String
deriving Repr, DecidableEq

/-- Embeds `extract_delete_command` (src/pattern/extractors/delete_ops.rs).
Note it reads `delete.tables` — the table list of a MULTI-table DELETE, which
is empty for a plain `DELETE FROM t ...` — not `delete.from`. -/
def extract_delete_command (stmt : Statement) : Option DeleteCommandInfo :=
  match stmt with
  | .delete delete =>
    match delete.tables.head? with
    | none => none
    | some nameParts =>
      match nameParts.head? with
      | none => none
      | some table =>
        delete.selection.bind fun expr =>
          (extract_key_from_condition expr).map fun key =>
            ⟨table, key, extract_set_member expr, extract_list_index expr⟩
  | _ => none

/-! ### `src/commands.rs` — the direct command generator -/

/-- Embeds `RedisCommand` (src/commands.rs). -/
structure RedisCommand where
  command : String
  args : List String
deriving Repr, DecidableEq

/-- Embeds `RedisCommand::to_string` (src/commands.rs): command name and
arguments joined by single spaces. -/
def RedisCommand.render (c : RedisCommand) : String :=
  String.intercalate " " (c.command :: c.args)

/-- Embeds the INSERT arm of `generate_command` (src/commands.rs lines
100-143): dispatch on the table suffix.  The hash arm iterates the field map
(modelled in insertion order; the source `HashMap` iteration order is
unspecified) skipping the `key` column. -/
def generate_insert_command (info : InsertCommandInfo) : Option RedisCommand :=
  match determine_table_type info.table with
  | "string" =>
    (assoc_get info.fields "value").map fun value => ⟨"SET", [info.key, value]⟩
  | "hash" =>
    let args := info.fields.foldl
      (fun acc p => if p.1 ≠ "key" then acc ++ [p.1, p.2] else acc)
      [info.key]
    some ⟨"HMSET", args⟩
  | "list" =>
    (assoc_get info.fields "value").bind fun value =>
      match assoc_get info.fields "index" with
      | some index => some ⟨"LSET", [info.key, index, value]⟩
      | none => some ⟨"RPUSH", [info.key, value]⟩
  | "set" =>
    (assoc_get info.fields "member").map fun member => ⟨"SADD", [info.key, member]⟩
  | "zset" =>
    (assoc_get info.fields "member").bind fun member =>
      (assoc_get info.fields "score").map fun score =>
        ⟨"ZADD", [info.key, score, member]⟩
  | _ => none

/-- Embeds the DELETE arm of `generate_command` (src/commands.rs lines
146-181): a bare key deletion becomes `DEL`; otherwise a type-specific
member/value deletion. -/
def generate_delete_command (info : DeleteCommandInfo) : Option RedisCommand :=
  let t := determine_table_type info.table
  if (t == "string" || t == "hash" || t == "list" || t == "set" || t == "zset") &&
     info.member.isNone && info.index.isNone then
    some ⟨"DEL", [info.key]⟩
  else
    match t with
    | "hash" =>
      match info.member with
      | some field => some ⟨"HDEL", [info.key, field]⟩
      | none => none
    | "list" =>
      match info.member with
      | some value => some ⟨"LREM", [info.key, "0", value]⟩
      | none => none
    | "set" =>
      match info.member with
      | some member => some ⟨"SREM", [info.key, member]⟩
      | none => none
    | "zset" =>
      match info.member with
      | some member => some ⟨"ZREM", [info.key, member]⟩
      | none => none
    | _ => none

/-- Embeds `generate_command` (src/commands.rs): the template-free direct
strategy, trying each extractor in source order and building a
`RedisCommand` from the first hit.  `(info.limit - 1)` in the LRANGE arm is
`u64` arithmetic, modelled by `u64_sub_one`. -/
def generate_command (stmt : Statement) : Option RedisCommand :=
  match extract_string_get stmt with
  | some info => some ⟨"GET", [info.key]⟩
  | none =>
  match extract_hash_getall stmt with
  | some info => some ⟨"HGETALL", [info.key]⟩
  | none =>
  match extract_hash_get stmt with
  | some info => some ⟨"HGET", [info.key, info.field]⟩
  | none =>
  match extract_hash_multi_get stmt with
  | some info => some ⟨"HMGET", info.key :: info.fields⟩
  | none =>
  match extract_list_get_index stmt with
  | some info => some ⟨"LINDEX", [info.key, info.index]⟩
  | none =>
  match extract_list_get_range stmt with
  | some info => some ⟨"LRANGE", [info.key, "0", toString (u64_sub_one info.limit)]⟩
  | none =>
  match extract_list_getall stmt with
  | some info => some ⟨"LRANGE", [info.key, "0", "-1"]⟩
  | none =>
  match extract_set_ismember stmt with
  | some info => some ⟨"SISMEMBER", [info.key, info.member]⟩
  | none =>
  match extract_set_getall stmt with
  | some info => some ⟨"SMEMBERS", [info.key]⟩
  | none =>
  match extract_zset_get_reversed stmt with
  | some info => some ⟨"ZREVRANGEBYSCORE", [info.key, "+inf", "-inf"]⟩
  | none =>
  match extract_zset_get_score_range stmt with
  | some info => some ⟨"ZRANGEBYSCORE", [info.key, info.min, info.max]⟩
  | none =>
  match extract_zset_getall stmt with
  | some info => some ⟨"ZRANGEBYSCORE", [info.key, "-inf", "+inf"]⟩
  | none =>
  match (extract_insert_command stmt).bind generate_insert_command with
  | some cmd => some cmd
  | none =>
  match (extract_delete_command stmt).bind generate_delete_command with
  | some cmd => some cmd
  | none => none

/-! ### `src/templates/mod.rs` — the template engine

A tera raw template used by this crate is a flat alternation of literal text
and `[[ var ]]`-style variable holes; each registered template string from
`register_command_templates` is transcribed below as its segment list.
Rendering substitutes each variable from the context and fails on a missing
variable or an unknown template name, which is what tera reports as an
error. -/

/-- One segment of a raw command template: literal text or a variable hole. -/
inductive TmplPart where
  | lit (s : String)
  | var (v : String)
deriving Repr, DecidableEq

/-- A registered raw template, as its list of segments. -/
abbrev Template := List TmplPart

/-- Embeds `TemplateContext = HashMap<String, String>` (src/context/mod.rs),
as an association list with unique keys. -/
abbrev TemplateContext := List (String × String)

/-- Rendering failure of the template collaborator: unknown template name or
a variable absent from the context (the two tera failure modes this crate
can hit). -/
inductive TeraError where
  | templateNotFound (name : String)
  | missingVariable (name : String)
deriving Repr, DecidableEq

/-- Renders one template against a context, left to right. -/
def render_template (ctx : TemplateContext) : Template → Except TeraError String
  | [] => .ok ""
  | .lit s :: rest => (render_template ctx rest).map fun tail => s ++ tail
  | .var v :: rest =>
    match assoc_get ctx v with
    | some value => (render_template ctx rest).map fun tail => value ++ tail
    | none => .error (.missingVariable v)

/-- Embeds the raw templates added by `register_command_templates`
(src/templates/mod.rs lines 66-103), in registration order.  Note the
command-shaped names this function does NOT register: there is no
`hash_delete`, `list_delete`, `set_delete`, `zset_delete`, `string_update`,
`hash_update` or `zset_update` entry. -/
def registered_command_templates : List (String × Template) :=
  [ ("del", [.lit "DEL ", .var "key"]),
    ("string_get", [.lit "GET ", .var "key"]),
    ("string_set", [.lit "SET ", .var "key", .lit " ", .var "value"]),
    ("hash_getall", [.lit "HGETALL ", .var "key"]),
    ("hash_get", [.lit "HGET ", .var "key", .lit " ", .var "field"]),
    ("hash_hmget", [.lit "HMGET ", .var "key", .lit " ", .var "fields"]),
    ("hash_set", [.lit "HSET ", .var "key", .lit " ", .var "field_values"]),
    ("hash_delete_field", [.lit "HDEL ", .var "key", .lit " ", .var "field"]),
    ("list_getall", [.lit "LRANGE ", .var "key", .lit " 0 -1"]),
    ("list_get_index", [.lit "LINDEX ", .var "key", .lit " ", .var "index"]),
    ("list_get_range",
      [.lit "LRANGE ", .var "key", .lit " ", .var "start", .lit " ", .var "stop"]),
    ("list_push", [.lit "RPUSH ", .var "key", .lit " ", .var "value"]),
    ("list_update",
      [.lit "LSET ", .var "key", .lit " ", .var "index", .lit " ", .var "value"]),
    ("list_delete_value", [.lit "LREM ", .var "key", .lit " 0 ", .var "value"]),
    ("set_getall", [.lit "SMEMBERS ", .var "key"]),
    ("set_ismember", [.lit "SISMEMBER ", .var "key", .lit " ", .var "member"]),
    ("set_add", [.lit "SADD ", .var "key", .lit " ", .var "members"]),
    ("set_delete_member", [.lit "SREM ", .var "key", .lit " ", .var "member"]),
    ("zset_getall", [.lit "ZRANGEBYSCORE ", .var "key", .lit " -inf +inf"]),
    ("zset_get_score_range",
      [.lit "ZRANGEBYSCORE ", .var "key", .lit " ", .var "min", .lit " ", .var "max"]),
    ("zset_get_reversed",
      [.lit "ZREVRANGEBYSCORE ", .var "key", .lit " ", .var "max", .lit " ", .var "min"]),
    ("zset_add",
      [.lit "ZADD ", .var "key", .lit " ", .var "score", .lit " ", .var "member"]),
    ("zset_delete_member", [.lit "ZREM ", .var "key", .lit " ", .var "member"]) ]

/-- Embeds the `TemplateEngine` (src/templates/mod.rs): the statically
registered command templates plus the Lua templates loaded from disk at
construction time.  The Lua template bodies are external data; the only fact
the crate guarantees about them is that `register_lua_templates` names every
one of them `format!("..._lua")`, so each registered Lua name literally ends
in the four characters `_lua` — that invariant is carried in the structure. -/
structure TemplateEngine where
  lua_templates : List (String × Template)
  lua_names_marked :
    ∀ p ∈ lua_templates, ("_lua".toList.isSuffixOf p.1.toList) = true

/-- Embeds `TemplateEngine::render` (src/templates/mod.rs): look the name up
among all registered templates and render it against the context. -/
def TemplateEngine.render (e : TemplateEngine) (template_name : String)
    (context : TemplateContext) : Except TeraError String :=
  match ((registered_command_templates ++ e.lua_templates).find?
      fun p => p.1 == template_name) with
  | some p => render_template context p.2
  | none => .error (.templateNotFound template_name)

/-! ### `src/context/` — context builders

Each Rust `ContextBuilder` struct is embedded as its `build_context`
function.  `HashMap::insert` calls are modelled by `assoc_insert` in source
order. -/

/-- Embeds `StringGetContextBuilder` (src/context/select.rs). -/
def StringGetContextBuilder (stmt : Statement) : Option TemplateContext :=
  (((sel_get_query stmt).bind fun q => sel_get_select q).bind fun select =>
    sel_get_key_value select.selection).map fun key =>
    assoc_insert [] "key" key

/-- Embeds `HashGetAllContextBuilder` (src/context/select.rs). -/
def HashGetAllContextBuilder (stmt : Statement) : Option TemplateContext :=
  (((sel_get_query stmt).bind fun q => sel_get_select q).bind fun select =>
    sel_get_key_value select.selection).map fun key =>
    assoc_insert [] "key" key

/-- Embeds `HashGetContextBuilder` (src/context/select.rs); the source
indexes `projection[0]`, which is only reached with a nonempty projection. -/
def HashGetContextBuilder (stmt : Statement) : Option TemplateContext :=
  ((((sel_get_query stmt).bind fun q => sel_get_select q).bind fun select =>
    sel_get_key_value select.selection).bind fun key =>
    ((((sel_get_query stmt).bind fun q => sel_get_select q).bind fun select =>
      select.projection.head?.bind sel_get_field_name).map fun field =>
      (key, field))).map fun p =>
    assoc_insert (assoc_insert [] "key" p.1) "field" p.2

/-- Embeds `HashMultiGetContextBuilder` (src/context/select.rs); the
`fields_array` entry quotes each field name for the Lua template option. -/
def HashMultiGetContextBuilder (stmt : Statement) : Option TemplateContext :=
  (((sel_get_query stmt).bind fun q => sel_get_select q).bind fun select =>
    sel_get_key_value select.selection).bind fun key =>
    (((sel_get_query stmt).bind fun q => sel_get_select q).map fun select =>
      sel_get_field_names select.projection).bind fun fields =>
      if fields.isEmpty then none
      else
        some (assoc_insert
          (assoc_insert (assoc_insert [] "key" key)
            "fields" (String.intercalate " " fields))
          "fields_array"
          (String.intercalate ", " (fields.map fun f => "\x27" ++ f ++ "\x27")))

/-- Embeds `ListGetAllContextBuilder` (src/context/select.rs). -/
def ListGetAllContextBuilder (stmt : Statement) : Option TemplateContext :=
  (((sel_get_query stmt).bind fun q => sel_get_select q).bind fun select =>
    sel_get_key_value select.selection).map fun key =>
    assoc_insert (assoc_insert (assoc_insert [] "key" key) "start" "0") "stop" "-1"

/-- Embeds `ListGetIndexContextBuilder` (src/context/select.rs). -/
def ListGetIndexContextBuilder (stmt : Statement) : Option TemplateContext :=
  (((sel_get_query stmt).bind fun q => sel_get_select q).bind fun select =>
    sel_get_key_value select.selection).bind fun key =>
    (((sel_get_query stmt).bind fun q => sel_get_select q).bind fun select =>
      sel_get_field_filter select.selection "index").map fun index =>
      assoc_insert (assoc_insert [] "key" key) "index" index

/-- Embeds `ListGetRangeContextBuilder` (src/context/select.rs): the `stop`
entry is the `u64` value `(limit - 1)` stringified — `u64_sub_one` makes the
wrap-around at `limit = 0` explicit. -/
def ListGetRangeContextBuilder (stmt : Statement) : Option TemplateContext :=
  (((sel_get_query stmt).bind fun q => sel_get_select q).bind fun select =>
    sel_get_key_value select.selection).bind fun key =>
    ((sel_get_query stmt).bind fun query => sel_get_limit query).map fun limit =>
      assoc_insert (assoc_insert (assoc_insert [] "key" key) "start" "0")
        "stop" (toString (u64_sub_one limit))

/-- Embeds `SetGetAllContextBuilder` (src/context/select.rs). -/
def SetGetAllContextBuilder (stmt : Statement) : Option TemplateContext :=
  (((sel_get_query stmt).bind fun q => sel_get_select q).bind fun select =>
    sel_get_key_value select.selection).map fun key =>
    assoc_insert [] "key" key

/-- Embeds `SetIsMemberContextBuilder` (src/context/select.rs). -/
def SetIsMemberContextBuilder (stmt : Statement) : Option TemplateContext :=
  (((sel_get_query stmt).bind fun q => sel_get_select q).bind fun select =>
    sel_get_key_value select.selection).bind fun key =>
    (((sel_get_query stmt).bind fun q => sel_get_select q).bind fun select =>
      sel_get_field_filter select.selection "member").map fun member =>
      assoc_insert (assoc_insert [] "key" key) "member" member

/-- Embeds `ZSetGetAllContextBuilder` (src/context/select.rs). -/
def ZSetGetAllContextBuilder (stmt : Statement) : Option TemplateContext :=
  (((sel_get_query stmt).bind fun q => sel_get_select q).bind fun select =>
    sel_get_key_value select.selection).map fun key =>
    assoc_insert (assoc_insert (assoc_insert [] "key" key) "min" "-inf") "max" "+inf"

/-- Embeds `ZSetGetScoreRangeContextBuilder` (src/context/select.rs). -/
def ZSetGetScoreRangeContextBuilder (stmt : Statement) : Option TemplateContext :=
  (((sel_get_query stmt).bind fun q => sel_get_select q).bind fun select =>
    sel_get_key_value select.selection).bind fun key =>
    (((sel_get_query stmt).bind fun q => sel_get_select q).bind fun select =>
      sel_get_score_range select.selection).map fun range =>
      assoc_insert (assoc_insert (assoc_insert [] "key" key) "min" range.1)
        "max" range.2

/-- Embeds `ZSetGetReversedContextBuilder` (src/context/select.rs). -/
def ZSetGetReversedContextBuilder (stmt : Statement) : Option TemplateContext :=
  (((sel_get_query stmt).bind fun q => sel_get_select q).bind fun select =>
    sel_get_key_value select.selection).map fun key =>
    assoc_insert (assoc_insert (assoc_insert [] "key" key) "max" "+inf") "min" "-inf"

/-- Modelled from the spec: `StringGetValueContextBuilder` is referenced by
`create_select_rules` (src/rules/select.rs line 27) but its definition is
absent from the source snapshot.  Per the spec, the `value`-projection string
GET shape reuses the `string_get` template (`GET <key>`), whose only variable
is `key`; the builder therefore supplies the key extracted from the WHERE
clause, exactly as `StringGetContextBuilder` does. -/
def StringGetValueContextBuilder (stmt : Statement) : Option TemplateContext :=
  (((sel_get_query stmt).bind fun q => sel_get_select q).bind fun select =>
    sel_get_key_value select.selection).map fun key =>
    assoc_insert [] "key" key

/-- Embeds `StringSetContextBuilder` (src/context/insert.rs). -/
def StringSetContextBuilder (stmt : Statement) : Option TemplateContext :=
  (ins_get_column_value stmt "key").bind fun key =>
    (ins_get_column_value stmt "value").map fun value =>
      assoc_insert (assoc_insert [] "key" key) "value" value

/-- Embeds `HashSetContextBuilder` (src/context/insert.rs). -/
def HashSetContextBuilder (stmt : Statement) : Option TemplateContext :=
  (ins_get_values_as_maps stmt).bind fun value_maps =>
    value_maps.head?.bind fun row =>
      (assoc_get row "key").bind fun key =>
        let field_values := assoc_remove row "key"
        if field_values.isEmpty then none
        else
          some (assoc_insert (assoc_insert [] "key" key)
            "field_values"
            (String.intercalate " "
              (field_values.map fun p => p.1 ++ " " ++ p.2)))

/-- Embeds `ListPushContextBuilder` (src/context/insert.rs). -/
def ListPushContextBuilder (stmt : Statement) : Option TemplateContext :=
  (ins_get_column_value stmt "key").bind fun key =>
    (ins_get_column_value stmt "value").map fun value =>
      assoc_insert (assoc_insert [] "key" key) "value" value

/-- Embeds `SetAddContextBuilder` (src/context/insert.rs). -/
def SetAddContextBuilder (stmt : Statement) : Option TemplateContext :=
  (ins_get_column_value stmt "key").bind fun key =>
    (ins_get_values_as_maps stmt).bind fun values =>
      (values.head?.bind fun row => assoc_get row "key").bind fun first_key =>
        let members :=
          (values.filter fun row =>
            match assoc_get row "key" with
            | some k => k == first_key
            | none => false).filterMap fun row => assoc_get row "member"
        if members.isEmpty then none
        else
          some (assoc_insert (assoc_insert [] "key" key)
            "members" (String.intercalate " " members))

/-- Embeds `ZSetAddContextBuilder` (src/context/insert.rs). -/
def ZSetAddContextBuilder (stmt : Statement) : Option TemplateContext :=
  (ins_get_column_value stmt "key").bind fun key =>
    (ins_get_column_value stmt "member").bind fun member =>
      (ins_get_column_value stmt "score").map fun score =>
        assoc_insert (assoc_insert (assoc_insert [] "key" key) "member" member)
          "score" score

/-- Embeds `StringUpdateContextBuilder` (src/context/update.rs). -/
def StringUpdateContextBuilder (stmt : Statement) : Option TemplateContext :=
  (upd_get_key_value stmt).bind fun key =>
    (upd_get_assignments stmt).bind fun assignments =>
      (assoc_get assignments "value").map fun value =>
        assoc_insert (assoc_insert [] "key" key) "value" value

/-- Embeds `HashUpdateContextBuilder` (src/context/update.rs). -/
def HashUpdateContextBuilder (stmt : Statement) : Option TemplateContext :=
  (upd_get_key_value stmt).bind fun key =>
    (upd_get_assignments stmt).bind fun assignments =>
      if assignments.isEmpty then none
      else
        some (assoc_insert (assoc_insert [] "key" key)
          "field_values"
          (String.intercalate " " (assignments.map fun p => p.1 ++ " " ++ p.2)))

/-- Embeds `ListUpdateContextBuilder` (src/context/update.rs). -/
def ListUpdateContextBuilder (stmt : Statement) : Option TemplateContext :=
  (upd_get_key_value stmt).bind fun key =>
    (upd_get_field_filter stmt "index").bind fun index =>
      (upd_get_assignments stmt).bind fun assignments =>
        (assoc_get assignments "value").map fun value =>
          assoc_insert (assoc_insert (assoc_insert [] "key" key) "index" index)
            "value" value

/-- Embeds `ZSetUpdateContextBuilder` (src/context/update.rs). -/
def ZSetUpdateContextBuilder (stmt : Statement) : Option TemplateContext :=
  (upd_get_key_value stmt).bind fun key =>
    (upd_get_field_filter stmt "member").bind fun member =>
      (upd_get_assignments stmt).bind fun assignments =>
        (assoc_get assignments "score").map fun score =>
          assoc_insert (assoc_insert (assoc_insert [] "key" key) "member" member)
            "score" score

/-- Embeds `StringDeleteContextBuilder` (src/context/delete.rs). -/
def StringDeleteContextBuilder (stmt : Statement) : Option TemplateContext :=
  (ast.delete.get_key_value stmt).map fun key => assoc_insert [] "key" key

/-- Embeds `HashDeleteContextBuilder` (src/context/delete.rs). -/
def HashDeleteContextBuilder (stmt : Statement) : Option TemplateContext :=
  (ast.delete.get_key_value stmt).map fun key => assoc_insert [] "key" key

/-- Embeds `HashDeleteFieldContextBuilder` (src/context/delete.rs). -/
def HashDeleteFieldContextBuilder (stmt : Statement) : Option TemplateContext :=
  (ast.delete.get_key_value stmt).bind fun key =>
    (ast.delete.get_field_filter stmt "field").map fun field =>
      assoc_insert (assoc_insert [] "key" key) "field" field

/-- Embeds `ListDeleteContextBuilder` (src/context/delete.rs). -/
def ListDeleteContextBuilder (stmt : Statement) : Option TemplateContext :=
  (ast.delete.get_key_value stmt).map fun key => assoc_insert [] "key" key

/-- Embeds `ListDeleteValueContextBuilder` (src/context/delete.rs). -/
def ListDeleteValueContextBuilder (stmt : Statement) : Option TemplateContext :=
  (ast.delete.get_key_value stmt).bind fun key =>
    (ast.delete.get_field_filter stmt "value").map fun value =>
      assoc_insert (assoc_insert [] "key" key) "value" value

/-- Embeds `SetDeleteContextBuilder` (src/context/delete.rs). -/
def SetDeleteContextBuilder (stmt : Statement) : Option TemplateContext :=
  (ast.delete.get_key_value stmt).map fun key => assoc_insert [] "key" key

/-- Embeds `SetDeleteMemberContextBuilder` (src/context/delete.rs). -/
def SetDeleteMemberContextBuilder (stmt : Statement) : Option TemplateContext :=
  (ast.delete.get_key_value stmt).bind fun key =>
    (ast.delete.get_field_filter stmt "member").map fun member =>
      assoc_insert (assoc_insert [] "key" key) "member" member

/-- Embeds `ZSetDeleteContextBuilder` (src/context/delete.rs). -/
def ZSetDeleteContextBuilder (stmt : Statement) : Option TemplateContext :=
  (ast.delete.get_key_value stmt).map fun key => assoc_insert [] "key" key

/-- Embeds `ZSetDeleteMemberContextBuilder` (src/context/delete.rs). -/
def ZSetDeleteMemberContextBuilder (stmt : Statement) : Option TemplateContext :=
  (ast.delete.get_key_value stmt).bind fun key =>
    (ast.delete.get_field_filter stmt "member").map fun member =>
      assoc_insert (assoc_insert [] "key" key) "member" member

/-! ### `src/rules/` — the rule registry -/

/-- Embeds the `Rule` trait objects built by `GenericRule::new`
(src/rules/mod.rs), with the `GenericRule` field names: `matcher` backs the
trait method `matches`, `context_builder` backs `get_context`, and
`template_name` backs `get_template_name`.  The `with_matcher_name` /
`with_sql_pattern` / `with_redis_pattern` metadata is purely diagnostic and
never read by `transform`, so it is omitted. -/
structure Rule where
  matcher : Statement → Bool
  context_builder : Statement → Option TemplateContext
  template_name : String

/-- Embeds `create_select_rules` (src/rules/select.rs), in source order. -/
def create_select_rules : List Rule :=
  [ ⟨matchers.select.is_string_get, StringGetContextBuilder, "string_get"⟩,
    ⟨matchers.select.is_string_get_value, StringGetValueContextBuilder, "string_get"⟩,
    ⟨matchers.select.is_hash_getall, HashGetAllContextBuilder, "hash_getall"⟩,
    ⟨matchers.select.is_hash_get, HashGetContextBuilder, "hash_get"⟩,
    ⟨matchers.select.is_hash_hmget, HashMultiGetContextBuilder, "hash_hmget"⟩,
    ⟨matchers.select.is_list_getall, ListGetAllContextBuilder, "list_getall"⟩,
    ⟨matchers.select.is_list_get_index, ListGetIndexContextBuilder, "list_get_index"⟩,
    ⟨matchers.select.is_list_get_range, ListGetRangeContextBuilder, "list_get_range"⟩,
    ⟨matchers.select.is_set_getall, SetGetAllContextBuilder, "set_getall"⟩,
    ⟨matchers.select.is_set_ismember, SetIsMemberContextBuilder, "set_ismember"⟩,
    ⟨matchers.select.is_zset_getall, ZSetGetAllContextBuilder, "zset_getall"⟩,
    ⟨matchers.select.is_zset_get_score_range, ZSetGetScoreRangeContextBuilder,
      "zset_get_score_range"⟩,
    ⟨matchers.select.is_zset_get_reversed, ZSetGetReversedContextBuilder,
      "zset_get_reversed"⟩ ]

/-- Embeds `create_insert_rules` (src/rules/insert.rs), in source order. -/
def create_insert_rules : List Rule :=
  [ ⟨matchers.insert.is_string_set, StringSetContextBuilder, "string_set"⟩,
    ⟨matchers.insert.is_hash_set, HashSetContextBuilder, "hash_set"⟩,
    ⟨matchers.insert.is_list_push, ListPushContextBuilder, "list_push"⟩,
    ⟨matchers.insert.is_set_add, SetAddContextBuilder, "set_add"⟩,
    ⟨matchers.insert.is_zset_add, ZSetAddContextBuilder, "zset_add"⟩ ]

/-- Embeds `create_update_rules` (src/rules/update.rs), in source order. -/
def create_update_rules : List Rule :=
  [ ⟨matchers.update.is_string_update, StringUpdateContextBuilder, "string_update"⟩,
    ⟨matchers.update.is_hash_update, HashUpdateContextBuilder, "hash_update"⟩,
    ⟨matchers.update.is_list_update, ListUpdateContextBuilder, "list_update"⟩,
    ⟨matchers.update.is_zset_update, ZSetUpdateContextBuilder, "zset_update"⟩ ]

/-- Embeds `create_delete_rules` (src/rules/delete.rs), in source order. -/
def create_delete_rules : List Rule :=
  [ ⟨matchers.delete.is_string_delete, StringDeleteContextBuilder, "del"⟩,
    ⟨matchers.delete.is_hash_delete, HashDeleteContextBuilder, "hash_delete"⟩,
    ⟨matchers.delete.is_hash_delete_field, HashDeleteFieldContextBuilder,
      "hash_delete_field"⟩,
    ⟨matchers.delete.is_list_delete, ListDeleteContextBuilder, "list_delete"⟩,
    ⟨matchers.delete.is_list_delete_value, ListDeleteValueContextBuilder,
      "list_delete_value"⟩,
    ⟨matchers.delete.is_set_delete, SetDeleteContextBuilder, "set_delete"⟩,
    ⟨matchers.delete.is_set_delete_member, SetDeleteMemberContextBuilder,
      "set_delete_member"⟩,
    ⟨matchers.delete.is_zset_delete, ZSetDeleteContextBuilder, "zset_delete"⟩,
    ⟨matchers.delete.is_zset_delete_member, ZSetDeleteMemberContextBuilder,
      "zset_delete_member"⟩ ]

/-- Embeds `create_rules` (src/rules/mod.rs): the ordered registry, SELECT
rules first, then INSERT, UPDATE and DELETE rules. -/
def create_rules : List Rule :=
  create_select_rules ++ create_insert_rules ++ create_update_rules ++
    create_delete_rules

/-! ### `src/lib.rs` — the transformer facade -/

/-- Embeds `SqlRedisError` (src/lib.rs). -/
inductive SqlRedisError where
  | sqlParseError (msg : String)
  | noMatchingPattern (sql : String)
  | templateError (msg : String)
  | initializationError (msg : String)
deriving Repr, DecidableEq

/-- The message text used when mapping a tera error into
`SqlRedisError::TemplateError` (the source calls `e.to_string()`; the exact
renderer wording is external, so a fixed faithful shape is used). -/
def tera_error_message : TeraError → String
  | .templateNotFound name => "Template " ++ name ++ " not found"
  | .missingVariable name => "Variable " ++ name ++ " not found in context"

/-- The rule-iteration loop of `SqlToRedisTransformer::transform`
(src/lib.rs lines 72-87): for each rule in order, when its predicate holds
AND its context builder succeeds, render its template and return; a matching
rule whose builder fails is skipped; when the loop exhausts the registry the
call fails with `NoMatchingPattern` — the direct command generator is never
consulted. -/
def transform_rules (engine : TemplateEngine) (sql : String) (stmt : Statement) :
    List Rule → Except SqlRedisError String
  | [] => .error (.noMatchingPattern sql)
  | rule :: rest =>
    if rule.matcher stmt then
      match rule.context_builder stmt with
      | some context =>
        (engine.render rule.template_name context).mapError fun e =>
          .templateError (tera_error_message e)
      | none => transform_rules engine sql stmt rest
    else transform_rules engine sql stmt rest

/-- Embeds `SqlToRedisTransformer::transform` (src/lib.rs lines 59-88)
applied to an already-parsed statement: the SQL-text-to-AST step is performed
by the external `sqlparser` crate and is outside this embedding; `sql` is the
original text, carried only into the `NoMatchingPattern` payload. -/
def transform (engine : TemplateEngine) (sql : String) (stmt : Statement) :
    Except SqlRedisError String :=
  transform_rules engine sql stmt create_rules

/-! ### Concrete inputs

Each `..._stmt` below is the `sqlparser` AST of a fixed SQL text, built by
the external parser collaborator (generic SQL grammar; `=` and comparison
operators bind tighter than `AND`, so a WHERE clause of the form
`a = x AND b > y` parses with the conjunction as the top node). -/

/-- SQL text `SELECT * FROM leaderboard__zset WHERE key = 'games:global' AND
score > 1000` (the key literal is single-quoted). -/
def c2_sql : String :=
  "SELECT * FROM leaderboard__zset WHERE key = \x27games:global\x27 AND score > 1000"

/-- Parse of `c2_sql`: wildcard projection, table `leaderboard__zset`, WHERE
tree `(key = games:global) AND (score > 1000)` with the conjunction on top. -/
def c2_stmt : Statement :=
  .query ⟨.selectBody ⟨[.wildcard], [.table ["leaderboard__zset"]],
    some (.binaryOp
      (.binaryOp (.identifier "key") .eq (.value (.singleQuotedString "games:global")))
      .andOp
      (.binaryOp (.identifier "score") .gt (.value (.number "1000"))))⟩,
    none, none⟩

/-- SQL text `SELECT * FROM tweets__list WHERE key = 'user:1001:tweets'
LIMIT 10`. -/
def c3_sql : String :=
  "SELECT * FROM tweets__list WHERE key = \x27user:1001:tweets\x27 LIMIT 10"

/-- Parse of `c3_sql`. -/
def c3_stmt : Statement :=
  .query ⟨.selectBody ⟨[.wildcard], [.table ["tweets__list"]],
    some (.binaryOp (.identifier "key") .eq
      (.value (.singleQuotedString "user:1001:tweets")))⟩,
    none, some (.value (.number "10"))⟩

/-- SQL text `DELETE FROM users__hash WHERE key = 'user:1001'`. -/
def c4_sql : String :=
  "DELETE FROM users__hash WHERE key = \x27user:1001\x27"

/-- Parse of `c4_sql`: a single-table DELETE, so the multi-table `tables`
list is empty and the FROM list holds the one table. -/
def c4_stmt : Statement :=
  .delete ⟨[], [.table ["users__hash"]],
    some (.binaryOp (.identifier "key") .eq
      (.value (.singleQuotedString "user:1001")))⟩

/-- Parse of `SELECT * FROM tweets__list WHERE key = 'k' LIMIT 0`. -/
def c6_stmt : Statement :=
  .query ⟨.selectBody ⟨[.wildcard], [.table ["tweets__list"]],
    some (.binaryOp (.identifier "key") .eq (.value (.singleQuotedString "k")))⟩,
    none, some (.value (.number "0"))⟩

/-- Query of `SELECT * FROM leaderboard__zset WHERE key = 'games:global'
ORDER BY name ASC, score DESC`: the FIRST ORDER BY term is `name`
(ascending), the second is `score` with explicit DESC. -/
def c7_query : Query :=
  ⟨.selectBody ⟨[.wildcard], [.table ["leaderboard__zset"]],
    some (.binaryOp (.identifier "key") .eq
      (.value (.singleQuotedString "games:global")))⟩,
    some (.expressions
      [⟨.identifier "name", some true⟩, ⟨.identifier "score", some false⟩]),
    none⟩

/-- The statement wrapping `c7_query`. -/
def c7_stmt : Statement :=
  .query c7_query

/-- A transformer engine with no Lua templates on disk. -/
def empty_engine : TemplateEngine :=
  ⟨[], by intro p hp; simp at hp⟩

/-! ## Theorems

Helper lemmas about the dispatch loop and the suffix classifier come first,
followed by one theorem (plus witness or counterexample where required) per
claim C1-C10. -/

/-- A rule whose predicate rejects the statement is skipped by the dispatch
loop. -/
theorem transform_rules_cons_skip (e : TemplateEngine) (sql : String)
    (stmt : Statement) (r : Rule) (rest : List Rule)
    (hm : r.matcher stmt = false) :
    transform_rules e sql stmt (r :: rest) = transform_rules e sql stmt rest := by
  simp only [transform_rules, hm, Bool.false_eq_true, if_false]

/-- A rule whose predicate accepts the statement but whose context builder
fails is also skipped by the dispatch loop. -/
theorem transform_rules_cons_skip_ctx (e : TemplateEngine) (sql : String)
    (stmt : Statement) (r : Rule) (rest : List Rule)
    (hc : r.context_builder stmt = none) :
    transform_rules e sql stmt (r :: rest) = transform_rules e sql stmt rest := by
  cases hmb : r.matcher stmt with
  | false => exact transform_rules_cons_skip e sql stmt r rest hmb
  | true => simp only [transform_rules, hmb, if_true, hc]

/-- A rule whose predicate accepts the statement and whose context builder
succeeds short-circuits the dispatch loop: its template is rendered. -/
theorem transform_rules_cons_hit (e : TemplateEngine) (sql : String)
    (stmt : Statement) (r : Rule) (rest : List Rule) (ctx : TemplateContext)
    (hm : r.matcher stmt = true) (hc : r.context_builder stmt = some ctx) :
    transform_rules e sql stmt (r :: rest) =
      (e.render r.template_name ctx).mapError fun err =>
        .templateError (tera_error_message err) := by
  simp only [transform_rules, hm, if_true, hc]

/-- A prefix of rules that all either fail to match or fail to build a
context contributes nothing to the dispatch loop. -/
theorem transform_rules_append_skip (e : TemplateEngine) (sql : String)
    (stmt : Statement) :
    ∀ (pre rest : List Rule),
      (∀ r ∈ pre, r.matcher stmt = false ∨ r.context_builder stmt = none) →
      transform_rules e sql stmt (pre ++ rest) = transform_rules e sql stmt rest := by
  intro pre
  induction pre with
  | nil => intro rest _; rfl
  | cons r pre ih =>
    intro rest h
    have hr := h r (List.mem_cons_self r pre)
    have hrest := fun r' hr' => h r' (List.mem_cons_of_mem r hr')
    show transform_rules e sql stmt (r :: (pre ++ rest)) = _
    rcases hr with hm | hc
    · rw [transform_rules_cons_skip e sql stmt r _ hm]
      exact ih rest hrest
    · rw [transform_rules_cons_skip_ctx e sql stmt r _ hc]
      exact ih rest hrest

/-- No Lua template can carry a name that does not end in `_lua`. -/
theorem lua_template_find_none (e : TemplateEngine) (name : String)
    (h : ("_lua".toList.isSuffixOf name.toList) = false) :
    (e.lua_templates.find? fun p => p.1 == name) = none := by
  rw [List.find?_eq_none]
  intro p hp hbeq
  have hs := e.lua_names_marked p hp
  have heq : p.1 = name := beq_iff_eq.mp hbeq
  rw [heq] at hs
  rw [hs] at h
  exact Bool.noConfusion h

/-- Rendering a name that is neither statically registered nor a possible
Lua template name fails with a template-not-found error, whatever Lua
templates were loaded. -/
theorem render_template_not_found (e : TemplateEngine) (name : String)
    (ctx : TemplateContext)
    (hreg : (registered_command_templates.find? fun p => p.1 == name) = none)
    (hlua : ("_lua".toList.isSuffixOf name.toList) = false) :
    e.render name ctx = .error (.templateNotFound name) := by
  unfold TemplateEngine.render
  rw [List.find?_append, hreg, lua_template_find_none e name hlua]
  rfl

/-- Claim C1 (code_bug evidence): at the parsed statement of
`SELECT * FROM leaderboard__zset WHERE key = ... AND score > 1000`, no
registry rule both matches and builds a context — `transform` returns the
`NoMatchingPattern` error for every template engine — even though the Direct
Command Generator `generate_command` produces the command
`ZRANGEBYSCORE games:global (1000 +inf` for the very same statement.  The
claim says `transform` would fall through to `generate_command` and return
that string; in the source, `transform` (src/lib.rs lines 72-87) never calls
`generate_command` (src/commands.rs is not even declared as a module), so the
fall-through never happens. -/
theorem c1_transform_never_falls_through_to_generate_command :
    (∀ e : TemplateEngine,
      transform e c2_sql c2_stmt = .error (.noMatchingPattern c2_sql)) ∧
    (generate_command c2_stmt).map RedisCommand.render =
      some "ZRANGEBYSCORE games:global (1000 +inf" :=
  ⟨fun _ => rfl, rfl⟩

/-- Claim C2 (code_bug evidence): on the parse of
`SELECT * FROM leaderboard__zset WHERE key = ... AND score > 1000`,
`transform` returns the `NoMatchingPattern` error instead of the command
string `ZRANGEBYSCORE games:global (1000 +inf` asserted by the claim, the
spec round-trip table, and the in-crate test `test_zset_get_score_range`
(src/lib.rs lines 167-172).  The cause: `has_key_equals` and
`has_score_range` delegate to `sel_get_key_value` / `sel_get_score_range`,
which inspect only the TOP node of the WHERE tree; here that node is the
`AND`, so every SELECT rule predicate is false. -/
theorem c2_transform_errors_on_conjunctive_where :
    ∀ e : TemplateEngine,
      transform e c2_sql c2_stmt = .error (.noMatchingPattern c2_sql) :=
  fun _ => rfl

/-- Claim C3 (code_bug evidence): on the parse of
`SELECT * FROM tweets__list WHERE key = ... LIMIT 10`, `transform` returns
`LRANGE user:1001:tweets 0 -1`, not the `LRANGE user:1001:tweets 0 9`
asserted by the claim, the spec round-trip table, and the in-crate test
`test_list_get_range` (src/lib.rs lines 139-144).  The cause: the registry
lists `is_list_getall` (no LIMIT guard) before `is_list_get_range`, and the
list-getall rule matches every list-table wildcard SELECT with a key
condition, so first-match-wins renders the `list_getall` template. -/
theorem c3_limit_query_hits_list_getall_rule_first :
    (∀ e : TemplateEngine,
      transform e c3_sql c3_stmt = .ok "LRANGE user:1001:tweets 0 -1") ∧
    "LRANGE user:1001:tweets 0 -1" ≠ "LRANGE user:1001:tweets 0 9" :=
  ⟨fun _ => rfl, by decide⟩

/-- Claim C4: the DELETE statement `DELETE FROM users__hash WHERE key = ...`
is matched by the `is_hash_delete` rule, whose context builder succeeds, but
the template name `hash_delete` that the rule asks for — like
`list_delete`, `set_delete`, `zset_delete`, `string_update`, `hash_update`
and `zset_update`, all of which `create_update_rules` or
`create_delete_rules` reference — is never registered by
`register_command_templates`, and no Lua template can supply it (Lua names
end in `_lua`); `transform` therefore returns a `TemplateError` instead of a
command string, for every possible template engine. -/
theorem c4_unregistered_template_yields_template_error :
    (["hash_delete", "list_delete", "set_delete", "zset_delete",
      "string_update", "hash_update", "zset_update"].all fun name =>
        (registered_command_templates.find? fun p => p.1 == name).isNone) = true ∧
    create_update_rules.map Rule.template_name =
      ["string_update", "hash_update", "list_update", "zset_update"] ∧
    create_delete_rules.map Rule.template_name =
      ["del", "hash_delete", "hash_delete_field", "list_delete",
       "list_delete_value", "set_delete", "set_delete_member", "zset_delete",
       "zset_delete_member"] ∧
    matchers.delete.is_hash_delete c4_stmt = true ∧
    HashDeleteContextBuilder c4_stmt = some [("key", "user:1001")] ∧
    ∀ e : TemplateEngine,
      transform e c4_sql c4_stmt =
        .error (.templateError "Template hash_delete not found") := by
  refine ⟨rfl, rfl, rfl, rfl, rfl, fun e => ?_⟩
  show transform_rules e c4_sql c4_stmt create_rules = _
  rw [show create_rules =
      ((((create_select_rules ++ create_insert_rules) ++ create_update_rules) ++
        [(⟨matchers.delete.is_string_delete, StringDeleteContextBuilder, "del"⟩ : Rule)]) ++
        ((⟨matchers.delete.is_hash_delete, HashDeleteContextBuilder,
            "hash_delete"⟩ : Rule) :: create_delete_rules.drop 2)) from rfl]
  rw [transform_rules_append_skip e c4_sql c4_stmt _ _
    (by intro r hr; fin_cases hr <;> exact Or.inl rfl)]
  rw [transform_rules_cons_hit e c4_sql c4_stmt _ _ [("key", "user:1001")] rfl rfl]
  rw [render_template_not_found e "hash_delete" _ rfl rfl]
  rfl

/-- Claim C5: for every parsed statement, `transform` renders the template of
the FIRST registry rule (in the fixed order SELECT, INSERT, UPDATE, DELETE of
`create_rules`) whose predicate holds and whose context builder succeeds,
short-circuiting all later rules; every earlier rule that fails its predicate
OR fails its context builder is skipped silently — a matching rule with a
failing builder is not an error, the dispatcher simply proceeds. -/
theorem c5_first_matching_rule_with_context_wins :
    ∀ (e : TemplateEngine) (sql : String) (stmt : Statement)
      (pre post : List Rule) (r : Rule) (ctx : TemplateContext),
      create_rules = pre ++ r :: post →
      (∀ r' ∈ pre, r'.matcher stmt = false ∨ r'.context_builder stmt = none) →
      r.matcher stmt = true →
      r.context_builder stmt = some ctx →
      transform e sql stmt =
        (e.render r.template_name ctx).mapError fun err =>
          .templateError (tera_error_message err) := by
  intro e sql stmt pre post r ctx hsplit hpre hm hc
  show transform_rules e sql stmt create_rules = _
  rw [hsplit, transform_rules_append_skip e sql stmt pre (r :: post) hpre]
  exact transform_rules_cons_hit e sql stmt r post ctx hm hc

/-- Witness for C5: at the list LIMIT query of C3, the first five registry
rules all fail, the sixth (`list_getall`) matches with a context, and
`transform` returns exactly that rule rendering. -/
theorem c5_witness :
    transform empty_engine c3_sql c3_stmt = .ok "LRANGE user:1001:tweets 0 -1" := by
  have h := c5_first_matching_rule_with_context_wins empty_engine c3_sql c3_stmt
    [⟨matchers.select.is_string_get, StringGetContextBuilder, "string_get"⟩,
     ⟨matchers.select.is_string_get_value, StringGetValueContextBuilder, "string_get"⟩,
     ⟨matchers.select.is_hash_getall, HashGetAllContextBuilder, "hash_getall"⟩,
     ⟨matchers.select.is_hash_get, HashGetContextBuilder, "hash_get"⟩,
     ⟨matchers.select.is_hash_hmget, HashMultiGetContextBuilder, "hash_hmget"⟩]
    (create_select_rules.drop 6 ++ create_insert_rules ++ create_update_rules ++
      create_delete_rules)
    ⟨matchers.select.is_list_getall, ListGetAllContextBuilder, "list_getall"⟩
    [("key", "user:1001:tweets"), ("start", "0"), ("stop", "-1")]
    rfl (by intro r hr; fin_cases hr <;> exact Or.inl rfl) rfl rfl
  rw [h]
  rfl

/-- Claim C6 counterexample: at the parse of
`SELECT * FROM tweets__list WHERE key = ... LIMIT 0`, the stop value the
list-range context builder supplies for LRANGE is the `u64` wrap-around
`18446744073709551615`, not the `-1` the claim asserts (and in a debug build
the subtraction `0u64 - 1` panics instead of producing anything). -/
theorem c6_counterexample_limit_zero_stop_wraps :
    ((ListGetRangeContextBuilder c6_stmt).bind fun ctx => assoc_get ctx "stop") =
      some "18446744073709551615" ∧
    ((ListGetRangeContextBuilder c6_stmt).bind fun ctx => assoc_get ctx "stop") ≠
      some "-1" := by
  refine ⟨rfl, ?_⟩
  intro h
  rw [(rfl :
    ((ListGetRangeContextBuilder c6_stmt).bind fun ctx => assoc_get ctx "stop") =
      some "18446744073709551615")] at h
  exact absurd h (by decide)

/-- Claim C6 amended: for a list range query whose LIMIT literal is 0, the
computed stop value is the `u64` wrap-around of `0 - 1`, namely
`18446744073709551615` (a debug build panics on the overflow); the spec
value `-1` is never produced.  For `1 ≤ limit < 2 ^ 64` the computation
yields the expected `limit - 1`. -/
theorem c6_amended_limit_zero_stop_wraps :
    (∀ (q : Query) (ctx : TemplateContext),
      ListGetRangeContextBuilder (.query q) = some ctx →
      sel_get_limit q = some 0 →
      assoc_get ctx "stop" = some "18446744073709551615") ∧
    (∀ limit : Nat, 1 ≤ limit → limit < 2 ^ 64 → u64_sub_one limit = limit - 1) := by
  constructor
  · intro q ctx h hlim
    unfold ListGetRangeContextBuilder at h
    have hL : ((sel_get_query (Statement.query q)).bind fun query =>
        sel_get_limit query) = some 0 := hlim
    rw [hL] at h
    cases hK : ((sel_get_query (Statement.query q)).bind fun q => sel_get_select q).bind
        (fun select => sel_get_key_value select.selection) with
    | none => rw [hK] at h; exact Option.noConfusion h
    | some key =>
      rw [hK] at h
      have h' : some (assoc_insert (assoc_insert (assoc_insert [] "key" key)
          "start" "0") "stop" (toString (u64_sub_one 0))) = some ctx := h
      injection h' with h''
      rw [← h'']
      rfl
  · intro limit h1 h2
    have h3 : limit + (2 ^ 64 - 1) = (limit - 1) + 2 ^ 64 := by omega
    rw [u64_sub_one, h3, Nat.add_mod_right]
    exact Nat.mod_eq_of_lt (by omega)

/-- Witness for C6: the amended theorem applied at the concrete LIMIT 0
query with key `k`, and at the in-range limit 5. -/
theorem c6_witness :
    assoc_get [("key", "k"), ("start", "0"), ("stop", "18446744073709551615")]
      "stop" = some "18446744073709551615" ∧
    u64_sub_one 5 = 5 - 1 := by
  constructor
  · exact c6_amended_limit_zero_stop_wraps.1
      ⟨.selectBody ⟨[.wildcard], [.table ["tweets__list"]],
        some (.binaryOp (.identifier "key") .eq
          (.value (.singleQuotedString "k")))⟩, none, some (.value (.number "0"))⟩
      [("key", "k"), ("start", "0"), ("stop", "18446744073709551615")]
      rfl rfl
  · exact c6_amended_limit_zero_stop_wraps.2 5 (by decide) (by decide)

/-- Claim C7 counterexample: in the query
`... ORDER BY name ASC, score DESC`, the FIRST ORDER BY term is the
identifier `name` — not `score` — yet `has_order_by_score_desc` returns
true, because `sel_is_order_by_score_desc` tests ANY term with
`Iterator::any`, not only the first.  This falsifies the claim that the
classifier returns false for every query whose first ORDER BY term is not
`score`. -/
theorem c7_counterexample_first_term_not_score :
    c7_query.orderBy = some (.expressions
      [⟨.identifier "name", some true⟩, ⟨.identifier "score", some false⟩]) ∧
    matchers.select.has_order_by_score_desc c7_stmt = true :=
  ⟨rfl, rfl⟩

/-- Characterisation of the per-term ORDER BY predicate: it accepts exactly
the identifier `score` (case-insensitively) with explicit DESC. -/
theorem sel_score_desc_term_iff (oe : OrderExpr) :
    sel_score_desc_term oe = true ↔
      ∃ s, oe.expr = .identifier s ∧ str_lower s = "score" ∧
        oe.asc = some false := by
  obtain ⟨oexpr, oasc⟩ := oe
  cases oexpr with
  | identifier s =>
    simp only [sel_score_desc_term]
    by_cases hs : (str_lower s == "score") = true
    · rw [if_pos hs]
      cases oasc with
      | none => simp
      | some v =>
        cases v with
        | false => simp [beq_iff_eq.mp hs]
        | true => simp
    · rw [if_neg hs]
      simp only [Bool.false_eq_true, false_iff]
      rintro ⟨s1, he, hsc, _⟩
      injection he with he'
      rw [← he'] at hsc
      exact hs (beq_iff_eq.mpr hsc)
  | value v => simp [sel_score_desc_term]
  | binaryOp l op r => simp [sel_score_desc_term]
  | nested inner => simp [sel_score_desc_term]
  | otherExpr => simp [sel_score_desc_term]

/-- Claim C7 amended: `has_order_by_score_desc` returns true exactly when
SOME term (not necessarily the first) of the ORDER BY expression list is the
identifier `score` (case-insensitively) with an explicitly descending
direction; a `score` term that is ascending or of unspecified direction
never makes it true. -/
theorem c7_amended_any_descending_score_term :
    ∀ q : Query,
      matchers.select.has_order_by_score_desc (.query q) = true ↔
        ∃ exprs, q.orderBy = some (.expressions exprs) ∧
          ∃ oe ∈ exprs, ∃ s, oe.expr = .identifier s ∧
            str_lower s = "score" ∧ oe.asc = some false := by
  intro q
  show sel_is_order_by_score_desc q = true ↔ _
  unfold sel_is_order_by_score_desc
  cases horder : q.orderBy with
  | none => simp [horder]
  | some kind =>
    cases kind with
    | otherKind => simp [horder]
    | expressions exprs =>
      simp only [horder]
      rw [List.any_eq_true]
      constructor
      · rintro ⟨oe, hmem, hoe⟩
        exact ⟨exprs, rfl, oe, hmem, (sel_score_desc_term_iff oe).mp hoe⟩
      · rintro ⟨exprs', heq, oe, hmem, hterm⟩
        have hee : exprs = exprs' := by simpa using heq
        rw [hee]
        exact ⟨oe, hmem, (sel_score_desc_term_iff oe).mpr hterm⟩

/-- The suffix test accepts a string visibly ending in the suffix. -/
theorem str_ends_with_append (s suffix : String) :
    str_ends_with (s ++ suffix) suffix = true := by
  unfold str_ends_with
  rw [show (s ++ suffix).toList = s.toList ++ suffix.toList from
    String.data_append s suffix]
  exact (List.isSuffixOf_iff_suffix).mpr (List.suffix_append s.toList suffix.toList)

/-- Appending one suffix can never make a string end in an incomparable
other suffix (neither suffix a suffix of the other). -/
theorem str_ends_with_append_ne (s : String) (suf1 suf2 : String)
    (h12 : suf1.toList.isSuffixOf suf2.toList = false)
    (h21 : suf2.toList.isSuffixOf suf1.toList = false) :
    str_ends_with (s ++ suf2) suf1 = false := by
  unfold str_ends_with
  rw [show (s ++ suf2).toList = s.toList ++ suf2.toList from
    String.data_append s suf2]
  cases hb : suf1.toList.isSuffixOf (s.toList ++ suf2.toList) with
  | false => rfl
  | true =>
    have hsuf1 : suf1.toList <:+ s.toList ++ suf2.toList :=
      (List.isSuffixOf_iff_suffix).mp hb
    have hsuf2 : suf2.toList <:+ s.toList ++ suf2.toList :=
      List.suffix_append s.toList suf2.toList
    rcases List.suffix_or_suffix_of_suffix hsuf1 hsuf2 with h | h
    · have ht : suf1.toList.isSuffixOf suf2.toList = true :=
        (List.isSuffixOf_iff_suffix).mpr h
      rw [h12] at ht
      exact Bool.noConfusion ht
    · have ht : suf2.toList.isSuffixOf suf1.toList = true :=
        (List.isSuffixOf_iff_suffix).mpr h
      rw [h21] at ht
      exact Bool.noConfusion ht

/-- Claim C8: the table-kind classification is a total function into exactly
the five kinds, and appending any of the four special suffixes to any string
always classifies as the corresponding non-String kind — the suffix outranks
the String default, both in `get_redis_data_type` and its string-valued twin
`determine_table_type`. -/
theorem c8_table_kind_total_and_suffix_outranks_default :
    (∀ name : String,
      matchers.common.get_redis_data_type name = .string ∨
      matchers.common.get_redis_data_type name = .hash ∨
      matchers.common.get_redis_data_type name = .list ∨
      matchers.common.get_redis_data_type name = .set ∨
      matchers.common.get_redis_data_type name = .sortedSet) ∧
    (∀ s : String,
      matchers.common.get_redis_data_type (s ++ "__hash") = .hash ∧
      matchers.common.get_redis_data_type (s ++ "__list") = .list ∧
      matchers.common.get_redis_data_type (s ++ "__set") = .set ∧
      matchers.common.get_redis_data_type (s ++ "__zset") = .sortedSet) ∧
    (∀ s : String,
      determine_table_type (s ++ "__hash") = "hash" ∧
      determine_table_type (s ++ "__list") = "list" ∧
      determine_table_type (s ++ "__set") = "set" ∧
      determine_table_type (s ++ "__zset") = "zset") := by
  refine ⟨?_, ?_, ?_⟩
  · intro name
    unfold matchers.common.get_redis_data_type
    split_ifs
    · exact Or.inr (Or.inl rfl)
    · exact Or.inr (Or.inr (Or.inl rfl))
    · exact Or.inr (Or.inr (Or.inr (Or.inl rfl)))
    · exact Or.inr (Or.inr (Or.inr (Or.inr rfl)))
    · exact Or.inl rfl
  · intro s
    refine ⟨?_, ?_, ?_, ?_⟩
    · simp [matchers.common.get_redis_data_type, matchers.common.is_hash_table_name,
        str_ends_with_append s "__hash"]
    · simp [matchers.common.get_redis_data_type, matchers.common.is_hash_table_name,
        matchers.common.is_list_table_name,
        str_ends_with_append s "__list",
        str_ends_with_append_ne s "__hash" "__list" rfl rfl]
    · simp [matchers.common.get_redis_data_type, matchers.common.is_hash_table_name,
        matchers.common.is_list_table_name, matchers.common.is_set_table_name,
        str_ends_with_append s "__set",
        str_ends_with_append_ne s "__hash" "__set" rfl rfl,
        str_ends_with_append_ne s "__list" "__set" rfl rfl]
    · simp [matchers.common.get_redis_data_type, matchers.common.is_hash_table_name,
        matchers.common.is_list_table_name, matchers.common.is_set_table_name,
        matchers.common.is_zset_table_name,
        str_ends_with_append s "__zset",
        str_ends_with_append_ne s "__hash" "__zset" rfl rfl,
        str_ends_with_append_ne s "__list" "__zset" rfl rfl,
        str_ends_with_append_ne s "__set" "__zset" rfl rfl]
  · intro s
    refine ⟨?_, ?_, ?_, ?_⟩
    · simp [determine_table_type, str_ends_with_append s "__hash"]
    · simp [determine_table_type, str_ends_with_append s "__list",
        str_ends_with_append_ne s "__hash" "__list" rfl rfl]
    · simp [determine_table_type, str_ends_with_append s "__set",
        str_ends_with_append_ne s "__hash" "__set" rfl rfl,
        str_ends_with_append_ne s "__list" "__set" rfl rfl]
    · simp [determine_table_type, str_ends_with_append s "__zset",
        str_ends_with_append_ne s "__hash" "__zset" rfl rfl,
        str_ends_with_append_ne s "__list" "__zset" rfl rfl,
        str_ends_with_append_ne s "__set" "__zset" rfl rfl]

/-- Claim C9: `extract_score_range` maps the four single `score <cmp> N`
comparisons to their Redis range encodings — `>` to an exclusive `(N` lower
bound, `>=` to an inclusive one, symmetrically for `<` and `<=` on the upper
bound — and for a conjunction whose two branches both yield ranges it
returns the lower bound of the LEFT result paired with the upper bound of
the RIGHT result. -/
theorem c9_extract_score_range_encoding :
    (∀ n : String,
      extract_score_range (.binaryOp (.identifier "score") .gt
        (.value (.number n))) = some ("(" ++ n, "+inf")) ∧
    (∀ n : String,
      extract_score_range (.binaryOp (.identifier "score") .gtEq
        (.value (.number n))) = some (n, "+inf")) ∧
    (∀ n : String,
      extract_score_range (.binaryOp (.identifier "score") .lt
        (.value (.number n))) = some ("-inf", "(" ++ n)) ∧
    (∀ n : String,
      extract_score_range (.binaryOp (.identifier "score") .ltEq
        (.value (.number n))) = some ("-inf", n)) ∧
    (∀ (e1 e2 : Expr) (min1 max1 min2 max2 : String),
      extract_score_range e1 = some (min1, max1) →
      extract_score_range e2 = some (min2, max2) →
      extract_score_range (.binaryOp e1 .andOp e2) = some (min1, max2)) := by
  refine ⟨fun n => rfl, fun n => rfl, fun n => rfl, fun n => rfl, ?_⟩
  intro e1 e2 min1 max1 min2 max2 h1 h2
  cases e1 with
  | identifier s =>
    rw [show extract_score_range (.identifier s) = none from rfl] at h1
    exact Option.noConfusion h1
  | value v =>
    rw [show extract_score_range (Expr.value v) = none from rfl] at h1
    exact Option.noConfusion h1
  | nested inner =>
    rw [show extract_score_range (Expr.nested inner) = none from rfl] at h1
    exact Option.noConfusion h1
  | otherExpr =>
    rw [show extract_score_range Expr.otherExpr = none from rfl] at h1
    exact Option.noConfusion h1
  | binaryOp l op r =>
    show (match (none : Option (String × String)) with
      | some range => some range
      | none =>
        if BinaryOperator.andOp == .andOp then
          match extract_score_range (.binaryOp l op r), extract_score_range e2 with
          | some (min1, _), some (_, max2) => some (min1, max2)
          | some range, none => some range
          | none, some range => some range
          | none, none => none
        else none) = some (min1, max2)
    rw [h1, h2]
    rfl

/-- Witness for C9: the conjunction rule applied to the concrete WHERE tree
`score > 1000 AND score < 2000` yields the left lower bound `(1000` with the
right upper bound `(2000`. -/
theorem c9_witness :
    extract_score_range (.binaryOp
      (.binaryOp (.identifier "score") .gt (.value (.number "1000"))) .andOp
      (.binaryOp (.identifier "score") .lt (.value (.number "2000")))) =
      some ("(1000", "(2000") :=
  c9_extract_score_range_encoding.2.2.2.2
    (.binaryOp (.identifier "score") .gt (.value (.number "1000")))
    (.binaryOp (.identifier "score") .lt (.value (.number "2000")))
    "(1000" "+inf" "-inf" "(2000" rfl rfl

/-- Claim C10: comparing patterns by their result on every input, `or` is
associative, and `never` is both a left and a right identity for `or` (the
right-identity case uses that the no-match signal carries no information:
the error type is the unit type). -/
theorem c10_or_associative_never_identity :
    (∀ (I O : Type) (p1 p2 p3 : Pattern I O) (input : I),
      combinators.or (combinators.or p1 p2) p3 input =
        combinators.or p1 (combinators.or p2 p3) input) ∧
    (∀ (I O : Type) (p : Pattern I O) (input : I),
      combinators.or combinators.never p input = p input) ∧
    (∀ (I O : Type) (p : Pattern I O) (input : I),
      combinators.or p combinators.never input = p input) := by
  refine ⟨?_, ?_, ?_⟩
  · intro I O p1 p2 p3 input
    unfold combinators.or
    cases p1 input <;> rfl
  · intro I O p input
    rfl
  · intro I O p input
    unfold combinators.or combinators.never
    cases p input <;> rfl

end SqlToRedis
